import Mathlib

/-!
# RL-wifi traffic schedulers (Abmarl, `examples/ns3/rl-wifi`)

A shallow embedding of the two ns-3 drivers of the repository:

* `RLWifiNS3AI.cc`       (multi-node variant), namespace `RLWifiNS3AI`;
* `wifi-simple-adhoc.cc` (single-node variant), namespace `WifiSimpleAdhoc`.

Each callback of the source (`ReceivePacket`, `RandomizedSocketSend`,
`SendReceivedPacketData`, `GenerateTraffic`, `GenerateTraffic2`) is a function on an
explicit program state.  The state holds the file-level and function-level statics of
the source, the two shared-memory slots (`env`, `act`) and `trace`, the chronological
list of the externally visible effects (socket sends and closes, scheduled events,
channel calls).  `NS_LOG_UNCOND` output is not recorded, except the two lines that
tell branches apart: "node skipped" in `RandomizedSocketSend` and
"ERROR, incorrect state." in the single-node `GenerateTraffic`.

For the single-node file the event loop itself (`Simulator::Run` on a queue of timed
events, starting from what `main` schedules) is modelled as `Simulator.next` and
`Simulator.runFor`.

Conventions.
* `uint32_t` values are `Nat`; the one place where unsigned wrap-around is reachable
  (`nodeNum < numNodes-1`) is written with explicit `% 2^32`.
* `int` values are `Int`.  The increment of the received-packet counter is taken
  modulo `2^32` into the range of a 32-bit `int` (`wrapInt32`): past `2^31 - 1` the
  source overflows, and the properties of the counter carry the range as a hypothesis.
  The print counters `numPackets`, which no branch of the program reads, are left
  unbounded.
* Virtual time (`ns3::Time`) is a rational number of seconds.
* An out-of-range subscript (`agentSendMsg[nodeNum]`, `sockets[nodeNum]`) is undefined
  behaviour; the callbacks that subscript with a variable index return `Option`.
-/

/-- Virtual simulation time, in seconds. -/
abbrev Time := ℚ

/-- Conversion of a C++ `int` to `uint32_t` (value modulo `2^32`). -/
def toUInt32 (x : Int) : Nat := (x % 4294967296).toNat

/-- The value of `Time::GetMicroSeconds ()` for a time given in seconds: the number of
whole microseconds. -/
def GetMicroSeconds (t : Time) : Int := Int.floor (t * 1000000)

/-- The value `std::uniform_real_distribution<> (a, b)` returns for the canonical draw
`u` of its generator (`0 ≤ u < 1`): the point `a + u * (b - a)`. -/
def uniform_real_distribution (a b u : ℚ) : ℚ := a + u * (b - a)

/-- The record sent from the simulation to the agent (`struct NS3Environment`, the same
in both files). -/
structure NS3Environment where
  nodeId : Nat
  socketUid : Nat
  envType : Nat
  simTime_us : Int
  ssThresh : Nat
  cWnd : Nat
  segmentSize : Nat
  segmentsAcked : Nat
  bytesInFlight : Nat
  deriving DecidableEq

/-- The five assignments both files make between `EnvSetterCond ()` and
`SetCompleted ()`; the other four fields keep what the slot held. -/
def fillEnvironment (env : NS3Environment) (now : Time) (packetsReceived : Int) :
    NS3Environment :=
  { env with
    socketUid := 2
    envType := 1
    simTime_us := GetMicroSeconds now
    nodeId := 5
    segmentSize := toUInt32 packetsReceived }

/-- A value brought into the range of a 32-bit `int`, `[-2^31, 2^31 - 1]`, modulo
`2^32`. -/
def wrapInt32 (x : Int) : Int := (x + 2147483648) % 4294967296 - 2147483648

/-- The loop `while (socket->Recv ()) ++packetsReceived;` on the `int` counter: one
increment for every packet pending on the socket, then `Recv` returns null and the loop
ends.  An increment at `2^31 - 1` overflows; it is taken to wrap to `-2^31`. -/
def drain : Nat → Int → Int
  | 0, packetsReceived => packetsReceived
  | pending + 1, packetsReceived => drain pending (wrapInt32 (packetsReceived + 1))

/-- The cursor update shared by `RandomizedSocketSend` and `GenerateTraffic2`:
`if (nodeNum < numNodes-1) ++nodeNum; else nodeNum = 0;` with `int nodeNum` and
`uint32_t numNodes`, so the comparison is made in `uint32_t`; `numNodes-1` is
`(2^32 - 1 + numNodes) mod 2^32`, which is `2^32 - 1` when `numNodes` is 0. -/
def advanceCursor (numNodes : Nat) (nodeNum : Int) : Int :=
  if toUInt32 nodeNum < (4294967295 + numNodes) % 4294967296 then nodeNum + 1 else 0

namespace RLWifiNS3AI

/-- The record received from the agent (`struct NS3AgentActions` of `RLWifiNS3AI.cc`). -/
structure NS3AgentActions where
  runSimulation : Bool
  agentSendMsg : Fin 10 → Bool
  agentPositionX : Fin 10 → Nat := fun _ => 0
  agentPositionY : Fin 10 → Nat := fun _ => 0
  agentPositionZ : Fin 10 → Nat := fun _ => 0

/-- The two callbacks the program hands to the event scheduler. -/
inductive Callback where
  | GenerateTraffic
  | RandomizedSocketSend
  deriving DecidableEq

/-- A scheduled event: the callback, the arguments bound to it and the execution
context (`none` for `Simulator::Schedule`, which inherits the caller's context). -/
structure Event where
  context : Option Nat
  callback : Callback
  sockets : Nat
  pktSize : Nat
  pktCount : Nat
  pktInterval : Time
  deriving DecidableEq

/-- Externally visible effects, in the order the program performs them. -/
inductive Effect where
  | envPublish (env : NS3Environment)
  | actionRead
  | send (node : Nat) (pktSize : Nat)
  | skipped (node : Int)
  | close (index : Nat)
  | setFinish
  | stop
  | schedule (delay : Time) (ev : Event)
  deriving DecidableEq

/-- The globals made from command-line arguments. -/
structure Globals where
  numNodes : Nat
  interval : ℚ

/-- Program state of `RLWifiNS3AI.cc`. -/
structure State where
  env : NS3Environment
  act : NS3AgentActions
  packetsReceived : Int
  numPackets : Int
  nodeNum : Int
  now : Time
  trace : List Effect

/-- The state at process start: the statics at their initialisers, nothing done yet. -/
def initial (env : NS3Environment) (act : NS3AgentActions) : State :=
  { env := env, act := act, packetsReceived := 0, numPackets := 0, nodeNum := 0,
    now := 0, trace := [] }

/-- The receive callback, on a socket holding `pending` packets. -/
def ReceivePacket (pending : Nat) (s : State) : State :=
  { s with packetsReceived := drain pending s.packetsReceived }

/-- The loop `for (index = 0; index < pktCount; ++index)` of `RandomizedSocketSend`:
each round counts a packet and sends it on `sockets[nodeNum]`. -/
def sendLoop (sockets pktSize : Nat) (nodeNum : Int) : Nat → State → Option State
  | 0, s => some s
  | k + 1, s =>
    if 0 ≤ nodeNum ∧ nodeNum.toNat < sockets then
      sendLoop sockets pktSize nodeNum k
        { s with
          numPackets := s.numPackets + 1
          trace := s.trace ++ [Effect.send nodeNum.toNat pktSize] }
    else none

/-- The callback `RandomizedSocketSend (sockets, pktSize, pktCount, pktInterval)`. -/
def RandomizedSocketSend (g : Globals) (sockets pktSize pktCount : Nat)
    (_pktInterval : Time) (s : State) : Option State :=
  let s1 : State := { s with trace := s.trace ++ [Effect.actionRead] }
  if h : 0 ≤ s1.nodeNum ∧ s1.nodeNum < 10 then
    let sent : Option State :=
      if s1.act.agentSendMsg ⟨s1.nodeNum.toNat, by omega⟩ = true then
        sendLoop sockets pktSize s1.nodeNum pktCount s1
      else
        some { s1 with trace := s1.trace ++ [Effect.skipped s1.nodeNum] }
    sent.map fun s2 => { s2 with nodeNum := advanceCursor g.numNodes s2.nodeNum }
  else none

/-- A counted loop `for (i = 0; i < n; ++i) body (i)`. -/
def forLoop (n : Nat) (body : Nat → State → State) (s : State) : State :=
  (List.range n).foldl (fun st i => body i st) s

/-- The calls `Simulator::Schedule` and `Simulator::ScheduleWithContext`. -/
def Schedule (delay : Time) (ev : Event) (s : State) : State :=
  { s with trace := s.trace ++ [Effect.schedule delay ev] }

/-- The callback `GenerateTraffic (sockets, pktSize, pktCount, pktInterval)`.
`reply` is the content of the action slot when the blocking `SetCompleted ()` returns
(what the agent process has stored there); `draw i` is the canonical draw of the
generator made for node `i`. -/
def GenerateTraffic (g : Globals) (draw : Nat → ℚ) (reply : NS3AgentActions)
    (sockets pktSize pktCount : Nat) (pktInterval : Time) (s : State) : State :=
  let env := fillEnvironment s.env s.now s.packetsReceived
  let s1 : State :=
    { s with env := env, act := reply, trace := s.trace ++ [Effect.envPublish env] }
  let s2 : State := { s1 with trace := s1.trace ++ [Effect.actionRead] }
  let runSimulation := s2.act.runSimulation
  if runSimulation = true then
    let s3 := forLoop sockets
      (fun nodeNum st =>
        let random1 := uniform_real_distribution 0 (g.interval / 10) (draw nodeNum)
        Schedule random1
          ⟨some nodeNum, Callback.RandomizedSocketSend, sockets, pktSize, pktCount,
            pktInterval⟩ st) s2
    Schedule pktInterval
      ⟨none, Callback.GenerateTraffic, sockets, pktSize, pktCount, pktInterval⟩ s3
  else
    let s3 := forLoop sockets
      (fun index st => { st with trace := st.trace ++ [Effect.close index] }) s2
    let s4 : State := { s3 with trace := s3.trace ++ [Effect.setFinish] }
    { s4 with trace := s4.trace ++ [Effect.stop] }

/-- Firing a scheduled event: the event loop calls the callback with the arguments
bound at scheduling time (`draw` and `reply` are consumed by `GenerateTraffic` only). -/
def fire (g : Globals) (draw : Nat → ℚ) (reply : NS3AgentActions) (ev : Event)
    (s : State) : Option State :=
  match ev.callback with
  | Callback.GenerateTraffic =>
    some (GenerateTraffic g draw reply ev.sockets ev.pktSize ev.pktCount ev.pktInterval s)
  | Callback.RandomizedSocketSend =>
    RandomizedSocketSend g ev.sockets ev.pktSize ev.pktCount ev.pktInterval s

/-- Firing a list of events one after the other, in list order. -/
def fireAll (g : Globals) (draw : Nat → ℚ) (reply : NS3AgentActions) :
    List Event → State → Option State
  | [], s => some s
  | ev :: rest, s => (fire g draw reply ev s).bind (fireAll g draw reply rest)

/-- The effects performed between state `s` and a later state `s'`. -/
def effectsSince (s s' : State) : List Effect := s'.trace.drop s.trace.length

/-- The events of a given callback scheduled in a list of effects, with their delays. -/
def scheduled (cb : Callback) (effects : List Effect) : List (Time × Event) :=
  effects.filterMap fun e =>
    match e with
    | Effect.schedule delay ev => if ev.callback = cb then some (delay, ev) else none
    | _ => none

/-- Number of packets sent on socket `node` in a list of effects. -/
def sendsOn (node : Nat) (effects : List Effect) : Nat :=
  effects.countP fun e =>
    match e with
    | Effect.send n _ => n == node
    | _ => false

/-- The send flag of node `i` in an action record (`false` beyond the ten entries). -/
def sendFlag (act : NS3AgentActions) (i : Nat) : Bool :=
  if h : i < 10 then act.agentSendMsg ⟨i, h⟩ else false

/-- The effects of one `RandomizedSocketSend` invocation that evaluates node `c` against
the action record `act`: the read of the action, then either `pktCount` sends on
socket `c` or the "node skipped" line. -/
def invocationEffects (act : NS3AgentActions) (pktSize pktCount c : Nat) : List Effect :=
  Effect.actionRead ::
    (if sendFlag act c = true then List.replicate pktCount (Effect.send c pktSize)
     else [Effect.skipped (c : Int)])

/-- The effects of `k` successive `RandomizedSocketSend` invocations on `N` nodes that
start with the cursor on node `c` and all read the action record `act`. -/
def roundEffects (act : NS3AgentActions) (pktSize pktCount N : Nat) :
    Nat → Nat → List Effect
  | _, 0 => []
  | c, k + 1 =>
    invocationEffects act pktSize pktCount c ++
      roundEffects act pktSize pktCount N ((c + 1) % N) k

/-- The event `GenerateTraffic` schedules for node `nodeNum`. -/
def sendEvent (sockets pktSize pktCount : Nat) (pktInterval : Time) (nodeNum : Nat) :
    Event :=
  ⟨some nodeNum, Callback.RandomizedSocketSend, sockets, pktSize, pktCount, pktInterval⟩

/-- The event with which `GenerateTraffic` re-arms itself. -/
def stepEvent (sockets pktSize pktCount : Nat) (pktInterval : Time) : Event :=
  ⟨none, Callback.GenerateTraffic, sockets, pktSize, pktCount, pktInterval⟩

/-- The delay `GenerateTraffic` draws for node `nodeNum`. -/
def jitter (g : Globals) (draw : Nat → ℚ) (nodeNum : Nat) : Time :=
  uniform_real_distribution 0 (g.interval / 10) (draw nodeNum)

end RLWifiNS3AI

namespace WifiSimpleAdhoc

/-- The record received from the agent (`struct NS3AgentActions` of
`wifi-simple-adhoc.cc`). -/
structure NS3AgentActions where
  new_ssThresh : Nat
  new_cWnd : Nat
  deriving DecidableEq

/-- The callbacks the program hands to the event scheduler; `SendReceivedPacketData`
carries the index of the socket it is given. -/
inductive Callback where
  | GenerateTraffic
  | SendReceivedPacketData (socket : Nat)
  | GenerateTraffic2
  deriving DecidableEq

/-- A scheduled event: the callback, the arguments bound to it and the execution
context (`none` for `Simulator::Schedule`, which inherits the caller's context). -/
structure Event where
  context : Option Nat
  callback : Callback
  sockets : Nat
  pktSize : Nat
  pktCount : Nat
  pktInterval : Time
  deriving DecidableEq

/-- Externally visible effects, in the order the program performs them;
`incorrectState` is the line "ERROR, incorrect state.". -/
inductive Effect where
  | envPublish (env : NS3Environment)
  | actionRead
  | send (index : Nat) (pktSize : Nat)
  | close (index : Nat)
  | setFinish
  | stop
  | schedule (delay : Time) (ev : Event)
  | incorrectState
  deriving DecidableEq

/-- The global made from a command-line argument. -/
structure Globals where
  numNodes : Nat

/-- Program state of `wifi-simple-adhoc.cc`: the file-level counter, the statics of
`GenerateTraffic` (`firstTime`, `endSimulation`, `numPackets`) and of `GenerateTraffic2`
(`numPackets2`, `nodeNum2`), the shared slots, the clock and the effects so far. -/
structure State where
  env : NS3Environment
  act : NS3AgentActions
  packetsReceived : Int
  firstTime : Bool
  endSimulation : Bool
  numPackets : Int
  numPackets2 : Int
  nodeNum2 : Int
  now : Time
  trace : List Effect

/-- The state at process start: the statics at their initialisers, nothing done yet. -/
def initial (env : NS3Environment) (act : NS3AgentActions) : State :=
  { env := env, act := act, packetsReceived := 0, firstTime := true,
    endSimulation := false, numPackets := 0, numPackets2 := 0, nodeNum2 := 0,
    now := 0, trace := [] }

/-- The receive callback, on a socket holding `pending` packets. -/
def ReceivePacket (pending : Nat) (s : State) : State :=
  { s with packetsReceived := drain pending s.packetsReceived }

/-- The callback `SendReceivedPacketData (socket, pktSize, pktCount, pktInterval)`.
`reply` is the content of the action slot when the blocking `SetCompleted ()` returns. -/
def SendReceivedPacketData (reply : NS3AgentActions) (_socket _pktSize _pktCount : Nat)
    (_pktInterval : Time) (s : State) : State :=
  let env := fillEnvironment s.env s.now s.packetsReceived
  { s with env := env, act := reply, trace := s.trace ++ [Effect.envPublish env] }

/-- The calls `Simulator::Schedule` and `Simulator::ScheduleWithContext`. -/
def Schedule (delay : Time) (ev : Event) (s : State) : State :=
  { s with trace := s.trace ++ [Effect.schedule delay ev] }

/-- The loop `for (index = 0; index < pktCount; ++index)` of `GenerateTraffic`: each
round counts a packet and sends it on `sockets[0]`. -/
def sendLoop (pktSize : Nat) : Nat → State → State
  | 0, s => s
  | k + 1, s =>
    sendLoop pktSize k
      { s with
        numPackets := s.numPackets + 1
        trace := s.trace ++ [Effect.send 0 pktSize] }

/-- The callback `GenerateTraffic (sockets, pktSize, pktCount, pktInterval)`.  The
vector `sockets` is given by its size; `main` dereferences `sources[0]` before it
schedules the first invocation, so `sockets[0]` exists whenever this runs. -/
def GenerateTraffic (sockets pktSize pktCount : Nat) (pktInterval : Time) (s : State) :
    State :=
  let s0 : State := { s with trace := s.trace ++ [Effect.actionRead] }
  let s1 : State :=
    if s0.act.new_ssThresh = 1 then
      sendLoop pktSize pktCount { s0 with act := { s0.act with new_ssThresh := 0 } }
    else if s0.act.new_ssThresh = 1234 then
      { s0 with
        endSimulation := true
        trace := s0.trace ++ [Effect.close 0] ++ [Effect.setFinish] }
    else if s0.firstTime = true then
      { s0 with
        firstTime := false
        numPackets := s0.numPackets + 1
        trace := s0.trace ++ [Effect.send 0 pktSize] }
    else
      { s0 with trace := s0.trace ++ [Effect.incorrectState] }
  if s1.endSimulation = false then
    let smallestTimeUnit : ℚ := 1 / 1000
    let receiveInterval := pktInterval - smallestTimeUnit
    let s2 := Schedule receiveInterval
      ⟨none, Callback.SendReceivedPacketData 0, sockets, pktSize, pktCount, pktInterval⟩ s1
    Schedule pktInterval
      ⟨none, Callback.GenerateTraffic, sockets, pktSize, pktCount, pktInterval⟩ s2
  else
    { s1 with trace := s1.trace ++ [Effect.stop] }

/-- The loop of `GenerateTraffic2`: each round counts a packet and sends it on
`sockets[nodeNum]`. -/
def sendLoop2 (sockets pktSize : Nat) (nodeNum : Int) : Nat → State → Option State
  | 0, s => some s
  | k + 1, s =>
    if 0 ≤ nodeNum ∧ nodeNum.toNat < sockets then
      sendLoop2 sockets pktSize nodeNum k
        { s with
          numPackets2 := s.numPackets2 + 1
          trace := s.trace ++ [Effect.send nodeNum.toNat pktSize] }
    else none

/-- The callback `GenerateTraffic2 (sockets, pktSize, pktCount, pktInterval)`, the
background traffic of the single-node file. -/
def GenerateTraffic2 (g : Globals) (sockets pktSize pktCount : Nat) (pktInterval : Time)
    (s : State) : Option State :=
  (sendLoop2 sockets pktSize s.nodeNum2 pktCount s).map fun s1 =>
    let s2 : State := { s1 with nodeNum2 := advanceCursor g.numNodes s1.nodeNum2 }
    Schedule pktInterval
      ⟨none, Callback.GenerateTraffic2, sockets, pktSize, pktCount, pktInterval⟩ s2

/-- The effects performed between state `s` and a later state `s'`. -/
def effectsSince (s s' : State) : List Effect := s'.trace.drop s.trace.length

/-- The events of a given callback scheduled in a list of effects, with their delays. -/
def scheduled (cb : Callback) (effects : List Effect) : List (Time × Event) :=
  effects.filterMap fun e =>
    match e with
    | Effect.schedule delay ev => if ev.callback = cb then some (delay, ev) else none
    | _ => none

/-- All events scheduled in a list of effects, with their delays. -/
def allScheduled (effects : List Effect) : List (Time × Event) :=
  effects.filterMap fun e =>
    match e with
    | Effect.schedule delay ev => some (delay, ev)
    | _ => none

/-- Number of packets sent (on any socket) in a list of effects. -/
def sends (effects : List Effect) : Nat :=
  effects.countP fun e =>
    match e with
    | Effect.send _ _ => true
    | _ => false

/-- Number of packets sent on socket `index` in a list of effects. -/
def sendsOn (index : Nat) (effects : List Effect) : Nat :=
  effects.countP fun e =>
    match e with
    | Effect.send n _ => n == index
    | _ => false

/-- The event with which `GenerateTraffic` re-arms itself. -/
def stepEvent (sockets pktSize pktCount : Nat) (pktInterval : Time) : Event :=
  ⟨none, Callback.GenerateTraffic, sockets, pktSize, pktCount, pktInterval⟩

/-- The event with which `GenerateTraffic` schedules the next environment report. -/
def reportEvent (sockets pktSize pktCount : Nat) (pktInterval : Time) : Event :=
  ⟨none, Callback.SendReceivedPacketData 0, sockets, pktSize, pktCount, pktInterval⟩

/-- What runs between two invocations of `GenerateTraffic`: receive callbacks and the
environment report (with the agent's reply). -/
inductive Activity where
  | receive (pending : Nat)
  | report (reply : NS3AgentActions)

/-- The state change of one activity. -/
def Activity.apply (pktSize pktCount : Nat) (pktInterval : Time) :
    Activity → State → State
  | Activity.receive pending, s => ReceivePacket pending s
  | Activity.report reply, s => SendReceivedPacketData reply 0 pktSize pktCount pktInterval s

/-- The input of one step: the activities since the previous step and the action record
found in the slot when `GenerateTraffic` reads it. -/
structure StepInput where
  before : List Activity
  read : NS3AgentActions

/-- One executed step: the state at the read of the action and the state on return. -/
structure StepRecord where
  pre : State
  post : State

/-- The effects of an executed step. -/
def StepRecord.effects (r : StepRecord) : List Effect := effectsSince r.pre r.post

/-- The chain of `GenerateTraffic` invocations of a run.  `main` schedules the first;
every later one runs only if the previous invocation scheduled it and did not stop the
event loop. -/
def runSteps (sockets pktSize pktCount : Nat) (pktInterval : Time) :
    List StepInput → State → List StepRecord
  | [], _ => []
  | input :: rest, s =>
    let arrived := input.before.foldl
      (fun st a => Activity.apply pktSize pktCount pktInterval a st) s
    let pre : State := { arrived with act := input.read }
    let post := GenerateTraffic sockets pktSize pktCount pktInterval pre
    ⟨pre, post⟩ ::
      (if Effect.stop ∉ effectsSince pre post ∧
          scheduled Callback.GenerateTraffic (effectsSince pre post) ≠ [] then
        runSteps sockets pktSize pktCount pktInterval rest post
      else [])

/-- The two effects with which a step of `GenerateTraffic` re-arms: the next environment
report one millisecond before the next step, and the next step itself. -/
def rearm (sockets pktSize pktCount : Nat) (pktInterval : Time) : List Effect :=
  [Effect.schedule (pktInterval - 1 / 1000)
      (reportEvent sockets pktSize pktCount pktInterval),
    Effect.schedule pktInterval (stepEvent sockets pktSize pktCount pktInterval)]

end WifiSimpleAdhoc

namespace RLWifiNS3AI

/-- The reads of the action and the environment publications of a trace, in order:
`true` for a read (`ActionGetterCond`), `false` for a publication
(`EnvSetterCond` ... `SetCompleted`). -/
def handshakes (trace : List Effect) : List Bool :=
  trace.filterMap fun e =>
    match e with
    | Effect.actionRead => some true
    | Effect.envPublish _ => some false
    | _ => none

end RLWifiNS3AI

/-! ## The event loop of the single-node program -/

namespace WifiSimpleAdhoc

/-- The event scheduler around the program: the program state, the pending events with
their due times (in the order they were scheduled), the flag set by `Simulator::Stop`
and the number of events fired so far. -/
structure Simulator where
  program : State
  queue : List (Time × Event)
  stopped : Bool
  fired : Nat

/-- The pending event that runs next (the earliest due, the first scheduled among
equals) and the rest of the queue. -/
def popEarliest : List (Time × Event) → Option ((Time × Event) × List (Time × Event))
  | [] => none
  | p :: q =>
    match popEarliest q with
    | none => some (p, [])
    | some (m, rest) => if p.1 ≤ m.1 then some (p, q) else some (m, p :: rest)

/-- Number of environment publications in a trace. -/
def publications (trace : List Effect) : Nat :=
  trace.countP fun e =>
    match e with
    | Effect.envPublish _ => true
    | _ => false

/-- Firing a scheduled event: the event loop calls the callback with the arguments
bound at scheduling time; `reply` is what the agent answers if the callback is the
environment report. -/
def fireEvent (g : Globals) (reply : NS3AgentActions) (ev : Event) (s : State) :
    Option State :=
  match ev.callback with
  | Callback.GenerateTraffic =>
    some (GenerateTraffic ev.sockets ev.pktSize ev.pktCount ev.pktInterval s)
  | Callback.SendReceivedPacketData socket =>
    some (SendReceivedPacketData reply socket ev.pktSize ev.pktCount ev.pktInterval s)
  | Callback.GenerateTraffic2 =>
    GenerateTraffic2 g ev.sockets ev.pktSize ev.pktCount ev.pktInterval s

/-- One round of `Simulator::Run`: unless stopped or out of events, take the next event,
move the clock to its due time and fire it; the events it schedules join the queue at
`now + delay`.  `agent k` is the agent's answer to the `k`-th publication (counted from
0); `arrivals k` is the number of packets the receive callbacks drain before the `k`-th
event.  The result is `none` when the loop ends or the fired callback is undefined. -/
def Simulator.next (g : Globals) (agent : Nat → NS3AgentActions) (arrivals : Nat → Nat)
    (sim : Simulator) : Option Simulator :=
  if sim.stopped = true then none
  else
    match popEarliest sim.queue with
    | none => none
    | some (p, rest) =>
      let pre : State :=
        { ReceivePacket (arrivals sim.fired) sim.program with now := p.1 }
      match fireEvent g (agent (publications pre.trace)) p.2 pre with
      | none => none
      | some post =>
        some
          { program := post
            queue := rest ++
              (allScheduled (effectsSince pre post)).map fun e => (p.1 + e.1, e.2)
            stopped := decide (Effect.stop ∈ effectsSince pre post)
            fired := sim.fired + 1 }

/-- The first `n` rounds of the event loop (fewer if it ends earlier). -/
def Simulator.runFor (g : Globals) (agent : Nat → NS3AgentActions)
    (arrivals : Nat → Nat) : Nat → Simulator → Simulator
  | 0, sim => sim
  | n + 1, sim =>
    match sim.next g agent arrivals with
    | none => sim
    | some sim' => Simulator.runFor g agent arrivals n sim'

/-- The scheduler as `main` leaves it before `Simulator::Run`: `GenerateTraffic` due at
1 s and one `GenerateTraffic2` per node due at `1 + random1` s, `random1` drawn from
`uniform_real_distribution (0, 1)`. -/
def main (g : Globals) (env : NS3Environment) (act : NS3AgentActions)
    (packetSize numPackets : Nat) (interval : Time) (draw : Nat → ℚ) : Simulator :=
  { program := initial env act
    queue :=
      (1, ⟨some 0, Callback.GenerateTraffic, g.numNodes, packetSize, numPackets,
        interval⟩) ::
      (List.range g.numNodes).map fun index =>
        (1 + uniform_real_distribution 0 1 (draw index),
          ⟨some index, Callback.GenerateTraffic2, g.numNodes, packetSize, numPackets,
            interval⟩)
    stopped := false
    fired := 0 }

/-- The reads of the action and the environment publications of a trace, in order:
`true` for a read (`ActionGetterCond`), `false` for a publication
(`EnvSetterCond` ... `SetCompleted`). -/
def handshakes (trace : List Effect) : List Bool :=
  trace.filterMap fun e =>
    match e with
    | Effect.actionRead => some true
    | Effect.envPublish _ => some false
    | _ => none

/-- The list read, publication, read, publication, ... of length `n`. -/
def alternation (n : Nat) : List Bool := (List.range n).map fun i => i % 2 == 0

/-- The due times of the pending events selected by `select`. -/
def dues (select : Event → Bool) (queue : List (Time × Event)) : List Time :=
  (queue.filter fun p => select p.2).map Prod.fst

/-- Selects the `GenerateTraffic` events. -/
def isStep (ev : Event) : Bool :=
  match ev.callback with
  | Callback.GenerateTraffic => true
  | _ => false

/-- Selects the `SendReceivedPacketData` events. -/
def isReport (ev : Event) : Bool :=
  match ev.callback with
  | Callback.SendReceivedPacketData _ => true
  | _ => false

/-- What holds of the scheduler between two events of a run: reads and publications
have alternated so far, beginning with a read; while the loop is not stopped,
`endSimulation` is false, after a publication (or at the start) exactly one
`GenerateTraffic` and no report is pending, and after a read exactly one report and one
`GenerateTraffic` are pending, the report due first. -/
def Simulator.Consistent (sim : Simulator) : Prop :=
  handshakes sim.program.trace = alternation (handshakes sim.program.trace).length ∧
  (sim.stopped = false →
    sim.program.endSimulation = false ∧
    ((handshakes sim.program.trace).length % 2 = 0 →
      dues isReport sim.queue = [] ∧ ∃ gd, dues isStep sim.queue = [gd]) ∧
    ((handshakes sim.program.trace).length % 2 = 1 →
      ∃ r gd, dues isReport sim.queue = [r] ∧ dues isStep sim.queue = [gd] ∧ r < gd))

end WifiSimpleAdhoc

/-! ## Concrete inputs used in the examples -/

/-- An environment slot holding zeros. -/
def zeroEnvironment : NS3Environment := ⟨0, 0, 0, 0, 0, 0, 0, 0, 0⟩

namespace RLWifiNS3AI

/-- The effects of one `GenerateTraffic` invocation. -/
def stepEffects (g : Globals) (draw : Nat → ℚ) (reply : NS3AgentActions)
    (sockets pktSize pktCount : Nat) (pktInterval : Time) (s : State) : List Effect :=
  effectsSince s (GenerateTraffic g draw reply sockets pktSize pktCount pktInterval s)

/-- Two nodes, a step interval of one second. -/
def twoNodes : Globals := ⟨2, 1⟩

/-- An action record that lets the simulation run and selects node 1 only. -/
def sendOnNodeOne : NS3AgentActions :=
  { runSimulation := true, agentSendMsg := fun i => decide (i.val = 1) }

/-- An action record that ends the simulation. -/
def haltAction : NS3AgentActions :=
  { runSimulation := false, agentSendMsg := fun _ => false }

/-- A jitter source that always draws one half. -/
def halfDraw : Nat → ℚ := fun _ => 1 / 2

/-- The state at process start with a zeroed environment slot. -/
def startState : State := initial zeroEnvironment haltAction

/-- The state after the first `GenerateTraffic` of a two-node run with three packets
per step, when the agent replies `sendOnNodeOne`. -/
def afterFirstStep : State :=
  GenerateTraffic twoNodes halfDraw sendOnNodeOne 2 1000 3 1 startState

/-- The two events of that step with node 1 due first. -/
def nodeOneFirst : List (Time × Event) :=
  [(jitter twoNodes halfDraw 1, sendEvent 2 1000 3 1 1),
    (jitter twoNodes halfDraw 0, sendEvent 2 1000 3 1 0)]

end RLWifiNS3AI

namespace WifiSimpleAdhoc

/-- The effects of one `GenerateTraffic` invocation. -/
def stepEffects (sockets pktSize pktCount : Nat) (pktInterval : Time) (s : State) :
    List Effect :=
  effectsSince s (GenerateTraffic sockets pktSize pktCount pktInterval s)

/-- The state at process start with a zeroed environment slot and the given action. -/
def startState (new_ssThresh : Nat) : State := initial zeroEnvironment ⟨new_ssThresh, 0⟩

/-- A step input with nothing happening before the read. -/
def reading (new_ssThresh : Nat) : StepInput := ⟨[], ⟨new_ssThresh, 0⟩⟩

/-- The state at the second read of the run that starts from a zeroed action slot and
whose second step finds the value 5 in the slot (four sockets, one packet per step). -/
def secondRead : State :=
  { GenerateTraffic 4 1000 1 1 (startState 0) with act := ⟨5, 0⟩ }

end WifiSimpleAdhoc

namespace RLWifiNS3AI

/-- A state at virtual time 2.5 s in which seven packets have been received. -/
def reportState : State :=
  { initial zeroEnvironment haltAction with now := 5 / 2, packetsReceived := 7 }

end RLWifiNS3AI

namespace WifiSimpleAdhoc

/-- A state at virtual time 2.5 s in which seven packets have been received. -/
def reportState : State :=
  { initial zeroEnvironment ⟨0, 0⟩ with now := 5 / 2, packetsReceived := 7 }

end WifiSimpleAdhoc

namespace WifiSimpleAdhoc

/-- The scheduler of a two-node run (one packet of 1000 bytes per step, interval 1 s,
zeroed slots, every background draw one half, an agent that always answers the continue
sentinel, no packet received) after `n` rounds of the event loop. -/
def sampleRun (n : Nat) : Simulator :=
  Simulator.runFor ⟨2⟩ (fun _ => ⟨1, 0⟩) (fun _ => 0) n
    (main ⟨2⟩ zeroEnvironment ⟨0, 0⟩ 1000 1 1 (fun _ => 1 / 2))

end WifiSimpleAdhoc

/-! ## Multi-node variant: basic facts -/

namespace RLWifiNS3AI

theorem forLoop_emit (f : Nat → Effect) (n : Nat) (s : State) :
    forLoop n (fun i st => { st with trace := st.trace ++ [f i] }) s =
      { s with trace := s.trace ++ (List.range n).map f } := by
  induction n with
  | zero => simp [forLoop]
  | succ n ih =>
    unfold forLoop at ih ⊢
    rw [List.range_succ, List.foldl_append, ih]
    simp [List.map_append]

theorem sendLoop_eq (sockets pktSize : Nat) (nodeNum : Int) (h0 : 0 ≤ nodeNum)
    (hlt : nodeNum.toNat < sockets) (k : Nat) (s : State) :
    sendLoop sockets pktSize nodeNum k s =
      some { s with
        numPackets := s.numPackets + k
        trace := s.trace ++ List.replicate k (Effect.send nodeNum.toNat pktSize) } := by
  induction k generalizing s with
  | zero => simp [sendLoop]
  | succ k ih =>
    rw [sendLoop, if_pos ⟨h0, hlt⟩, ih]
    simp [List.replicate_succ]
    omega

theorem advanceCursor_eq (N c : Nat) (hN : 1 ≤ N) (hN32 : N < 4294967296) (hc : c < N) :
    advanceCursor N (c : Int) = (((c + 1) % N : Nat) : Int) := by
  unfold advanceCursor toUInt32
  have h1 : (4294967295 + N) % 4294967296 = N - 1 := by omega
  have h2 : ((c : Int) % 4294967296).toNat = c := by omega
  rw [h1, h2]
  by_cases hlt : c < N - 1
  · rw [if_pos hlt, Nat.mod_eq_of_lt (by omega)]
    push_cast
    rfl
  · rw [if_neg hlt]
    have : c + 1 = N := by omega
    rw [this, Nat.mod_self]
    rfl

theorem RandomizedSocketSend_eq (g : Globals) (sockets pktSize pktCount : Nat)
    (pktInterval : Time) (s : State) (c : Nat) (hc : s.nodeNum = (c : Int))
    (h10 : c < 10) (hs : c < sockets) :
    ∃ s', RandomizedSocketSend g sockets pktSize pktCount pktInterval s = some s' ∧
      s'.nodeNum = advanceCursor g.numNodes (c : Int) ∧ s'.act = s.act ∧
      s'.env = s.env ∧ s'.packetsReceived = s.packetsReceived ∧ s'.now = s.now ∧
      s'.trace = s.trace ++ invocationEffects s.act pktSize pktCount c := by
  obtain ⟨env, act, pr, np, nn, now, tr⟩ := s
  simp only at hc
  subst hc
  have hr : (0 : Int) ≤ (c : Int) ∧ (c : Int) < 10 := by omega
  have hfl : act.agentSendMsg ⟨(c : Int).toNat, by omega⟩ = sendFlag act c := by
    unfold sendFlag
    rw [dif_pos h10]
    congr 1
  unfold RandomizedSocketSend invocationEffects
  simp only [dif_pos hr, hfl]
  by_cases hf : sendFlag act c = true
  · simp only [if_pos hf]
    rw [sendLoop_eq sockets pktSize (c : Int) (by omega) (by simpa using hs)]
    simp
  · simp only [if_neg hf]
    simp

theorem GenerateTraffic_run (g : Globals) (draw : Nat → ℚ) (reply : NS3AgentActions)
    (sockets pktSize pktCount : Nat) (pktInterval : Time) (s : State)
    (hrun : reply.runSimulation = true) :
    GenerateTraffic g draw reply sockets pktSize pktCount pktInterval s =
      { s with
        env := fillEnvironment s.env s.now s.packetsReceived
        act := reply
        trace := s.trace ++
          ([Effect.envPublish (fillEnvironment s.env s.now s.packetsReceived),
            Effect.actionRead] ++
            (List.range sockets).map (fun i =>
              Effect.schedule (jitter g draw i)
                (sendEvent sockets pktSize pktCount pktInterval i)) ++
            [Effect.schedule pktInterval
              (stepEvent sockets pktSize pktCount pktInterval)]) } := by
  unfold GenerateTraffic
  simp only [hrun, if_true, Schedule]
  rw [forLoop_emit (fun i =>
    Effect.schedule (uniform_real_distribution 0 (g.interval / 10) (draw i))
      ⟨some i, Callback.RandomizedSocketSend, sockets, pktSize, pktCount, pktInterval⟩)]
  simp [stepEvent, jitter, sendEvent]

theorem GenerateTraffic_halt (g : Globals) (draw : Nat → ℚ) (reply : NS3AgentActions)
    (sockets pktSize pktCount : Nat) (pktInterval : Time) (s : State)
    (hrun : reply.runSimulation = false) :
    GenerateTraffic g draw reply sockets pktSize pktCount pktInterval s =
      { s with
        env := fillEnvironment s.env s.now s.packetsReceived
        act := reply
        trace := s.trace ++
          ([Effect.envPublish (fillEnvironment s.env s.now s.packetsReceived),
            Effect.actionRead] ++
            (List.range sockets).map Effect.close ++
            [Effect.setFinish, Effect.stop]) } := by
  unfold GenerateTraffic
  simp only [hrun, Bool.false_eq_true, if_false]
  rw [forLoop_emit Effect.close]
  simp

theorem fireAll_sends (g : Globals) (draw : Nat → ℚ) (reply : NS3AgentActions)
    (N pktSize pktCount : Nat) (hN : 1 ≤ N) (hN10 : N ≤ 10) (hg : g.numNodes = N)
    (evs : List Event)
    (hevs : ∀ ev ∈ evs, ev.callback = Callback.RandomizedSocketSend ∧ ev.sockets = N ∧
      ev.pktSize = pktSize ∧ ev.pktCount = pktCount)
    (c : Nat) (hc : c < N) (s : State) (hs : s.nodeNum = (c : Int)) :
    ∃ s', fireAll g draw reply evs s = some s' ∧
      s'.nodeNum = (((c + evs.length) % N : Nat) : Int) ∧ s'.act = s.act ∧
      s'.env = s.env ∧ s'.packetsReceived = s.packetsReceived ∧ s'.now = s.now ∧
      s'.trace = s.trace ++ roundEffects s.act pktSize pktCount N c evs.length := by
  induction evs generalizing c s with
  | nil =>
    refine ⟨s, rfl, ?_, rfl, rfl, rfl, rfl, ?_⟩
    · simp [Nat.mod_eq_of_lt hc, hs]
    · simp [roundEffects]
  | cons ev rest ih =>
    obtain ⟨hcb, hsock, hsize, hcount⟩ := hevs ev (List.mem_cons_self _ _)
    obtain ⟨s1, h1, hn1, ha1, he1, hp1, hw1, ht1⟩ :=
      RandomizedSocketSend_eq g N pktSize pktCount ev.pktInterval s c hs (by omega) hc
    rw [hg, advanceCursor_eq N c hN (by omega) hc] at hn1
    obtain ⟨s2, h2, hn2, ha2, he2, hp2, hw2, ht2⟩ :=
      ih (fun e he => hevs e (List.mem_cons_of_mem _ he)) ((c + 1) % N)
        (Nat.mod_lt _ (by omega)) s1 hn1
    refine ⟨s2, ?_, ?_, ha2.trans ha1, he2.trans he1, hp2.trans hp1, hw2.trans hw1, ?_⟩
    · simp only [fireAll, fire, hcb, hsock, hsize, hcount, h1, Option.some_bind, h2]
    · rw [hn2]
      congr 1
      rw [List.length_cons, Nat.mod_add_mod]
      congr 1
      omega
    · rw [ht2, ht1, ha1, List.length_cons, roundEffects, List.append_assoc]

theorem sendsOn_append (i : Nat) (l₁ l₂ : List Effect) :
    sendsOn i (l₁ ++ l₂) = sendsOn i l₁ + sendsOn i l₂ := by
  unfold sendsOn
  rw [List.countP_append]

theorem sendsOn_invocationEffects (act : NS3AgentActions) (pktSize pktCount c i : Nat) :
    sendsOn i (invocationEffects act pktSize pktCount c) =
      if c = i ∧ sendFlag act c = true then pktCount else 0 := by
  unfold sendsOn invocationEffects
  by_cases hf : sendFlag act c = true
  · by_cases hci : c = i
    · subst hci
      simp [hf, List.countP_cons, List.countP_replicate]
    · simp [hf, hci, List.countP_cons, List.countP_replicate]
  · simp [hf, List.countP_cons]

theorem sendsOn_roundEffects (act : NS3AgentActions) (pktSize pktCount N i : Nat)
    (k c : Nat) (hck : c + k ≤ N) :
    sendsOn i (roundEffects act pktSize pktCount N c k) =
      if c ≤ i ∧ i < c + k ∧ sendFlag act i = true then pktCount else 0 := by
  induction k generalizing c with
  | zero =>
    have : ¬ (c ≤ i ∧ i < c + 0 ∧ sendFlag act i = true) := by omega
    rw [if_neg this]
    rfl
  | succ k ih =>
    rw [roundEffects, sendsOn_append, sendsOn_invocationEffects]
    by_cases hk : k = 0
    · subst hk
      have h0 : sendsOn i (roundEffects act pktSize pktCount N ((c + 1) % N) 0) = 0 := rfl
      rw [h0]
      by_cases hci : c = i
      · subst hci
        by_cases hf : sendFlag act c = true
        · simp [hf]
        · simp [hf]
      · have h1 : ¬ (c = i ∧ sendFlag act c = true) := fun h => hci h.1
        have h2 : ¬ (c ≤ i ∧ i < c + (0 + 1) ∧ sendFlag act i = true) := by omega
        rw [if_neg h1, if_neg h2]
    · have hmod : (c + 1) % N = c + 1 := Nat.mod_eq_of_lt (by omega)
      rw [hmod, ih (c + 1) (by omega)]
      by_cases hci : c = i
      · subst hci
        have h2 : ¬ (c + 1 ≤ c ∧ c < c + 1 + k ∧ sendFlag act c = true) := by omega
        rw [if_neg h2]
        by_cases hf : sendFlag act c = true
        · have h3 : c ≤ c ∧ c < c + (k + 1) ∧ sendFlag act c = true := ⟨le_refl _, by omega, hf⟩
          rw [if_pos ⟨rfl, hf⟩, if_pos h3, Nat.add_zero]
        · have h3 : ¬ (c ≤ c ∧ c < c + (k + 1) ∧ sendFlag act c = true) := fun h => hf h.2.2
          have h4 : ¬ (c = c ∧ sendFlag act c = true) := fun h => hf h.2
          rw [if_neg h4, if_neg h3]
      · have h1 : ¬ (c = i ∧ sendFlag act c = true) := fun h => hci h.1
        rw [if_neg h1, Nat.zero_add]
        by_cases hb : c + 1 ≤ i ∧ i < c + 1 + k ∧ sendFlag act i = true
        · rw [if_pos hb, if_pos ⟨by omega, by omega, hb.2.2⟩]
        · rw [if_neg hb, if_neg]
          intro h
          exact hb ⟨by omega, by omega, h.2.2⟩

theorem skipped_mem_invocationEffects (act : NS3AgentActions) (pktSize pktCount c : Nat)
    (z : Int) :
    Effect.skipped z ∈ invocationEffects act pktSize pktCount c ↔
      z = (c : Int) ∧ sendFlag act c = false := by
  unfold invocationEffects
  by_cases hf : sendFlag act c = true
  · simp [hf, List.mem_replicate]
  · simp [hf]

theorem skipped_mem_roundEffects (act : NS3AgentActions) (pktSize pktCount N : Nat)
    (z : Int) (k c : Nat) (hck : c + k ≤ N) :
    Effect.skipped z ∈ roundEffects act pktSize pktCount N c k ↔
      ∃ j : Nat, z = (j : Int) ∧ c ≤ j ∧ j < c + k ∧ sendFlag act j = false := by
  induction k generalizing c with
  | zero =>
    simp only [roundEffects, List.not_mem_nil, false_iff]
    rintro ⟨j, -, h1, h2, -⟩
    omega
  | succ k ih =>
    rw [roundEffects, List.mem_append, skipped_mem_invocationEffects]
    by_cases hk : k = 0
    · subst hk
      simp only [roundEffects, List.not_mem_nil, or_false]
      constructor
      · rintro ⟨hz, hf⟩
        exact ⟨c, hz, le_refl _, by omega, hf⟩
      · rintro ⟨j, hz, h1, h2, hf⟩
        have : j = c := by omega
        subst this
        exact ⟨hz, hf⟩
    · have hmod : (c + 1) % N = c + 1 := Nat.mod_eq_of_lt (by omega)
      rw [hmod, ih (c + 1) (by omega)]
      constructor
      · rintro (⟨hz, hf⟩ | ⟨j, hz, h1, h2, hf⟩)
        · exact ⟨c, hz, le_refl _, by omega, hf⟩
        · exact ⟨j, hz, by omega, by omega, hf⟩
      · rintro ⟨j, hz, h1, h2, hf⟩
        by_cases hjc : j = c
        · subst hjc
          exact Or.inl ⟨hz, hf⟩
        · exact Or.inr ⟨j, hz, by omega, by omega, hf⟩

theorem effectsSince_append (s s' : State) (l : List Effect)
    (h : s'.trace = s.trace ++ l) : effectsSince s s' = l := by
  unfold effectsSince
  rw [h, List.drop_left]

theorem scheduled_map_sendEvent (f : Nat → Time) (sockets pktSize pktCount : Nat)
    (pktInterval : Time) (cb : Callback) (l : List Nat) :
    scheduled cb (l.map fun i =>
        Effect.schedule (f i) (sendEvent sockets pktSize pktCount pktInterval i)) =
      if cb = Callback.RandomizedSocketSend then
        l.map fun i => (f i, sendEvent sockets pktSize pktCount pktInterval i)
      else [] := by
  induction l with
  | nil => simp [scheduled]
  | cons a l ih =>
    unfold scheduled at ih ⊢
    cases cb <;> simp_all [sendEvent]

theorem effects_run (g : Globals) (draw : Nat → ℚ) (reply : NS3AgentActions)
    (sockets pktSize pktCount : Nat) (pktInterval : Time) (s : State)
    (hrun : reply.runSimulation = true) :
    effectsSince s (GenerateTraffic g draw reply sockets pktSize pktCount pktInterval s) =
      [Effect.envPublish (fillEnvironment s.env s.now s.packetsReceived),
        Effect.actionRead] ++
      (List.range sockets).map (fun i =>
        Effect.schedule (jitter g draw i)
          (sendEvent sockets pktSize pktCount pktInterval i)) ++
      [Effect.schedule pktInterval (stepEvent sockets pktSize pktCount pktInterval)] := by
  apply effectsSince_append
  rw [GenerateTraffic_run g draw reply sockets pktSize pktCount pktInterval s hrun]

theorem effects_halt (g : Globals) (draw : Nat → ℚ) (reply : NS3AgentActions)
    (sockets pktSize pktCount : Nat) (pktInterval : Time) (s : State)
    (hrun : reply.runSimulation = false) :
    effectsSince s (GenerateTraffic g draw reply sockets pktSize pktCount pktInterval s) =
      [Effect.envPublish (fillEnvironment s.env s.now s.packetsReceived),
        Effect.actionRead] ++
      (List.range sockets).map Effect.close ++ [Effect.setFinish, Effect.stop] := by
  apply effectsSince_append
  rw [GenerateTraffic_halt g draw reply sockets pktSize pktCount pktInterval s hrun]

theorem scheduled_sends_run (g : Globals) (draw : Nat → ℚ) (reply : NS3AgentActions)
    (sockets pktSize pktCount : Nat) (pktInterval : Time) (s : State)
    (hrun : reply.runSimulation = true) :
    scheduled Callback.RandomizedSocketSend
        (effectsSince s
          (GenerateTraffic g draw reply sockets pktSize pktCount pktInterval s)) =
      (List.range sockets).map fun i =>
        (jitter g draw i, sendEvent sockets pktSize pktCount pktInterval i) := by
  rw [effects_run g draw reply sockets pktSize pktCount pktInterval s hrun]
  have h := scheduled_map_sendEvent (jitter g draw) sockets pktSize pktCount pktInterval
    Callback.RandomizedSocketSend (List.range sockets)
  rw [if_pos rfl] at h
  unfold scheduled at h ⊢
  rw [List.filterMap_append, List.filterMap_append, h]
  simp [stepEvent]

theorem scheduled_steps_run (g : Globals) (draw : Nat → ℚ) (reply : NS3AgentActions)
    (sockets pktSize pktCount : Nat) (pktInterval : Time) (s : State)
    (hrun : reply.runSimulation = true) :
    scheduled Callback.GenerateTraffic
        (effectsSince s
          (GenerateTraffic g draw reply sockets pktSize pktCount pktInterval s)) =
      [(pktInterval, stepEvent sockets pktSize pktCount pktInterval)] := by
  rw [effects_run g draw reply sockets pktSize pktCount pktInterval s hrun]
  have h := scheduled_map_sendEvent (jitter g draw) sockets pktSize pktCount pktInterval
    Callback.GenerateTraffic (List.range sockets)
  rw [if_neg (by decide)] at h
  unfold scheduled at h ⊢
  rw [List.filterMap_append, List.filterMap_append, h]
  simp [stepEvent]

/-- C1. Multi-node variant, `1 ≤ N ≤ 10` nodes with `numNodes = sockets.size () = N`,
cursor `nodeNum = 0` when the step begins, run flag set, action record unchanged during
the step.  The `N` `RandomizedSocketSend` events that `GenerateTraffic` schedules, fired
in any order (`order` is an arbitrary permutation of them), all succeed and together
issue exactly `pktCount` sends on every node `i < N` whose flag `S[i]` is set and no
send on any other node; the "node skipped" line is printed exactly for the nodes
`i < N` whose flag is clear, so the number of nodes selected for transmission is
`|{i < N : S[i]}|`, and for `pktCount ≥ 1` that is the number of nodes on which at least
one packet is sent. -/
theorem step_sends_on_flagged_nodes (N : Nat) (hN1 : 1 ≤ N) (hN10 : N ≤ 10)
    (g : Globals) (hg : g.numNodes = N) (draw : Nat → ℚ) (reply : NS3AgentActions)
    (hrun : reply.runSimulation = true) (pktSize pktCount : Nat) (pktInterval : Time)
    (s : State) (hcur : s.nodeNum = 0) (order : List (Time × Event))
    (horder : order.Perm (scheduled Callback.RandomizedSocketSend
      (effectsSince s (GenerateTraffic g draw reply N pktSize pktCount pktInterval s)))) :
    order.length = N ∧
    ∃ s', fireAll g draw reply (order.map Prod.snd)
        (GenerateTraffic g draw reply N pktSize pktCount pktInterval s) = some s' ∧
      (∀ i, sendsOn i
          (effectsSince (GenerateTraffic g draw reply N pktSize pktCount pktInterval s) s') =
        if i < N ∧ sendFlag reply i = true then pktCount else 0) ∧
      (∀ i, i < N →
        (Effect.skipped (i : Int) ∈
            effectsSince (GenerateTraffic g draw reply N pktSize pktCount pktInterval s) s' ↔
          sendFlag reply i = false)) ∧
      ((List.range N).filter fun (i : Nat) => decide (Effect.skipped (i : Int) ∉
          effectsSince (GenerateTraffic g draw reply N pktSize pktCount pktInterval s)
            s')).length = ((List.range N).filter (sendFlag reply)).length ∧
      (0 < pktCount →
        ((List.range N).filter fun (i : Nat) => decide (0 < sendsOn i
          (effectsSince (GenerateTraffic g draw reply N pktSize pktCount pktInterval s)
            s'))).length = ((List.range N).filter (sendFlag reply)).length) := by
  rw [scheduled_sends_run g draw reply N pktSize pktCount pktInterval s hrun] at horder
  have hlen : order.length = N := by
    rw [horder.length_eq, List.length_map, List.length_range]
  have hshape : ∀ ev ∈ order.map Prod.snd,
      ev.callback = Callback.RandomizedSocketSend ∧ ev.sockets = N ∧
        ev.pktSize = pktSize ∧ ev.pktCount = pktCount := by
    intro ev hev
    obtain ⟨p, hp, rfl⟩ := List.mem_map.1 hev
    obtain ⟨i, -, rfl⟩ := List.mem_map.1 (horder.mem_iff.1 hp)
    exact ⟨rfl, rfl, rfl, rfl⟩
  have hstart : (GenerateTraffic g draw reply N pktSize pktCount pktInterval s).nodeNum =
      ((0 : Nat) : Int) := by
    rw [GenerateTraffic_run g draw reply N pktSize pktCount pktInterval s hrun]
    simpa using hcur
  have hact : (GenerateTraffic g draw reply N pktSize pktCount pktInterval s).act =
      reply := by
    rw [GenerateTraffic_run g draw reply N pktSize pktCount pktInterval s hrun]
  obtain ⟨s', hfire, -, -, -, -, -, htr⟩ :=
    fireAll_sends g draw reply N pktSize pktCount hN1 hN10 hg (order.map Prod.snd) hshape
      0 (by omega) (GenerateTraffic g draw reply N pktSize pktCount pktInterval s) hstart
  rw [List.length_map, hlen, hact] at htr
  have heff := effectsSince_append _ _ _ htr
  have hsend : ∀ i, sendsOn i
      (effectsSince (GenerateTraffic g draw reply N pktSize pktCount pktInterval s) s') =
        if i < N ∧ sendFlag reply i = true then pktCount else 0 := by
    intro i
    rw [heff, sendsOn_roundEffects reply pktSize pktCount N i N 0 (by omega)]
    simp
  have hskip : ∀ i, i < N →
      (Effect.skipped (i : Int) ∈
          effectsSince (GenerateTraffic g draw reply N pktSize pktCount pktInterval s) s' ↔
        sendFlag reply i = false) := by
    intro i hi
    rw [heff, skipped_mem_roundEffects reply pktSize pktCount N (i : Int) N 0 (by omega)]
    constructor
    · rintro ⟨j, hz, -, -, hf⟩
      have : i = j := by exact_mod_cast hz
      rw [this]
      exact hf
    · intro hf
      exact ⟨i, rfl, by omega, by omega, hf⟩
  refine ⟨hlen, s', hfire, hsend, hskip, ?_, ?_⟩
  · congr 1
    apply List.filter_congr
    intro i hi
    have hi' : i < N := List.mem_range.1 hi
    cases hf : sendFlag reply i
    · simpa using (hskip i hi').2 hf
    · have : ¬ Effect.skipped (i : Int) ∈
          effectsSince (GenerateTraffic g draw reply N pktSize pktCount pktInterval s) s' := by
        intro hmem
        have := (hskip i hi').1 hmem
        rw [hf] at this
        exact Bool.noConfusion this
      simpa using this
  · intro hpos
    congr 1
    apply List.filter_congr
    intro i hi
    have hi' : i < N := List.mem_range.1 hi
    rw [hsend i]
    cases hf : sendFlag reply i
    · simp
    · simp [hi', hpos]

/-- C1, at a concrete input: two nodes, flags `[false, true]`, three packets per step,
node 1's event fired before node 0's. -/
theorem step_sends_on_flagged_nodes_witness :
    (1 ≤ 2 ∧ 2 ≤ 10 ∧ startState.nodeNum = 0 ∧ nodeOneFirst.length = 2) ∧
    (fireAll twoNodes halfDraw sendOnNodeOne (nodeOneFirst.map Prod.snd)
        afterFirstStep).map (fun s' =>
      (sendsOn 0 (effectsSince afterFirstStep s'),
        sendsOn 1 (effectsSince afterFirstStep s'))) = some (0, 3) := by
  have h := step_sends_on_flagged_nodes 2 (by decide) (by decide) twoNodes rfl halfDraw
    sendOnNodeOne rfl 1000 3 1 startState rfl nodeOneFirst
    (by
      rw [scheduled_sends_run _ _ _ _ _ _ _ _ rfl]
      exact List.Perm.swap _ _ [])
  obtain ⟨hlen, s', hfire, hsend, -⟩ := h
  refine ⟨⟨by decide, by decide, rfl, hlen⟩, ?_⟩
  have h0 := hsend 0
  have h1 := hsend 1
  unfold afterFirstStep
  rw [hfire, Option.map_some']
  rw [h0, h1]
  simp [sendFlag, sendOnNodeOne]

/-- C2, refuted as stated.  Two nodes, cursor `0` before the step: after
`GenerateTraffic` and the two `RandomizedSocketSend` invocations it schedules the
cursor is `0` again, not `(0 + 1) mod 2 = 1`. -/
theorem cursor_after_step_counterexample :
    startState.nodeNum = 0 ∧
    (scheduled Callback.RandomizedSocketSend
      (stepEffects twoNodes halfDraw sendOnNodeOne 2 1000 3 1 startState)).length = 2 ∧
    (fireAll twoNodes halfDraw sendOnNodeOne
        ((scheduled Callback.RandomizedSocketSend
          (stepEffects twoNodes halfDraw sendOnNodeOne 2 1000 3 1 startState)).map Prod.snd)
        afterFirstStep).map State.nodeNum = some 0 ∧
    (0 : Int) ≠ (((0 + 1) % 2 : Nat) : Int) := by
  decide

/-- C2 (amended).  The cursor advances by one node per `RandomizedSocketSend`
invocation, not per step.  For `1 ≤ N ≤ 10` nodes (`numNodes = sockets.size () = N`),
every action record, every `pktCount` and every cursor `c < N`: one invocation succeeds
and leaves the cursor at `(c + 1) mod N`, whatever the send flags are; `GenerateTraffic`
itself leaves the cursor alone; and after the complete step (the `N` invocations it
schedules, fired in any order) the cursor is `c` again. -/
theorem cursor_advances_per_invocation (N : Nat) (hN1 : 1 ≤ N) (hN10 : N ≤ 10)
    (g : Globals) (hg : g.numNodes = N) (draw : Nat → ℚ) (reply : NS3AgentActions)
    (hrun : reply.runSimulation = true) (pktSize pktCount : Nat) (pktInterval : Time)
    (s : State) (c : Nat) (hc : c < N) (hcur : s.nodeNum = (c : Int))
    (order : List (Time × Event))
    (horder : order.Perm (scheduled Callback.RandomizedSocketSend
      (stepEffects g draw reply N pktSize pktCount pktInterval s))) :
    (RandomizedSocketSend g N pktSize pktCount pktInterval s).map State.nodeNum =
      some (((c + 1) % N : Nat) : Int) ∧
    (GenerateTraffic g draw reply N pktSize pktCount pktInterval s).nodeNum = (c : Int) ∧
    order.length = N ∧
    (fireAll g draw reply (order.map Prod.snd)
      (GenerateTraffic g draw reply N pktSize pktCount pktInterval s)).map State.nodeNum =
        some (c : Int) := by
  unfold stepEffects at horder
  rw [scheduled_sends_run g draw reply N pktSize pktCount pktInterval s hrun] at horder
  have hlen : order.length = N := by
    rw [horder.length_eq, List.length_map, List.length_range]
  have hshape : ∀ ev ∈ order.map Prod.snd,
      ev.callback = Callback.RandomizedSocketSend ∧ ev.sockets = N ∧
        ev.pktSize = pktSize ∧ ev.pktCount = pktCount := by
    intro ev hev
    obtain ⟨p, hp, rfl⟩ := List.mem_map.1 hev
    obtain ⟨i, -, rfl⟩ := List.mem_map.1 (horder.mem_iff.1 hp)
    exact ⟨rfl, rfl, rfl, rfl⟩
  have hstart : (GenerateTraffic g draw reply N pktSize pktCount pktInterval s).nodeNum =
      (c : Int) := by
    rw [GenerateTraffic_run g draw reply N pktSize pktCount pktInterval s hrun]
    exact hcur
  obtain ⟨s1, h1, hn1, -⟩ :=
    RandomizedSocketSend_eq g N pktSize pktCount pktInterval s c hcur (by omega) hc
  rw [hg, advanceCursor_eq N c hN1 (by omega) hc] at hn1
  obtain ⟨s', hfire, hn', -⟩ :=
    fireAll_sends g draw reply N pktSize pktCount hN1 hN10 hg (order.map Prod.snd) hshape
      c hc (GenerateTraffic g draw reply N pktSize pktCount pktInterval s) hstart
  rw [List.length_map, hlen, Nat.add_mod_right, Nat.mod_eq_of_lt hc] at hn'
  refine ⟨?_, hstart, hlen, ?_⟩
  · rw [h1, Option.map_some', hn1]
  · rw [hfire, Option.map_some', hn']

/-- C2 (amended), at a concrete input: two nodes, cursor `0`, node 1's event first. -/
theorem cursor_advances_per_invocation_witness :
    (1 ≤ 2 ∧ 2 ≤ 10 ∧ 0 < 2 ∧ startState.nodeNum = ((0 : Nat) : Int)) ∧
    (RandomizedSocketSend twoNodes 2 1000 3 1 startState).map State.nodeNum =
      some (((0 + 1) % 2 : Nat) : Int) ∧
    (fireAll twoNodes halfDraw sendOnNodeOne (nodeOneFirst.map Prod.snd)
      afterFirstStep).map State.nodeNum = some ((0 : Nat) : Int) := by
  have h := cursor_advances_per_invocation 2 (by decide) (by decide) twoNodes rfl halfDraw
    sendOnNodeOne rfl 1000 3 1 startState 0 (by decide) rfl nodeOneFirst
    (by
      unfold stepEffects
      rw [scheduled_sends_run _ _ _ _ _ _ _ _ rfl]
      exact List.Perm.swap _ _ [])
  exact ⟨⟨by decide, by decide, by decide, rfl⟩, h.1, h.2.2.2⟩

theorem count_close_range (i n : Nat) :
    List.count (Effect.close i) ((List.range n).map Effect.close) =
      if i < n then 1 else 0 := by
  have hinj : Function.Injective Effect.close := fun a b h => by
    injection h
  rw [List.count_map_of_injective _ _ hinj, List.count_eq_of_nodup (List.nodup_range n)]
  simp [List.mem_range]

theorem scheduled_map_close (cb : Callback) (l : List Nat) :
    scheduled cb (l.map Effect.close) = [] := by
  induction l with
  | nil => rfl
  | cons a l _ =>
    unfold scheduled
    simp

/-- C6. Multi-node variant, any socket vector (given by its size), a step in which the
run flag read after the handshake is false.  `GenerateTraffic` performs exactly: the
environment publication, the read of the action, `Close` on every socket of the vector
in index order, `SetFinish`, `Simulator::Stop`.  So every socket is closed (once),
finish is signalled, the event loop is stopped, and neither a `RandomizedSocketSend` nor
a further `GenerateTraffic` is scheduled (nothing is scheduled at all). -/
theorem halt_closes_every_socket (g : Globals) (draw : Nat → ℚ) (reply : NS3AgentActions)
    (hrun : reply.runSimulation = false) (sockets pktSize pktCount : Nat)
    (pktInterval : Time) (s : State) :
    stepEffects g draw reply sockets pktSize pktCount pktInterval s =
      [Effect.envPublish (fillEnvironment s.env s.now s.packetsReceived),
        Effect.actionRead] ++
      (List.range sockets).map Effect.close ++ [Effect.setFinish, Effect.stop] ∧
    (∀ i, i < sockets → List.count (Effect.close i)
      (stepEffects g draw reply sockets pktSize pktCount pktInterval s) = 1) ∧
    Effect.setFinish ∈ stepEffects g draw reply sockets pktSize pktCount pktInterval s ∧
    Effect.stop ∈ stepEffects g draw reply sockets pktSize pktCount pktInterval s ∧
    scheduled Callback.RandomizedSocketSend
      (stepEffects g draw reply sockets pktSize pktCount pktInterval s) = [] ∧
    scheduled Callback.GenerateTraffic
      (stepEffects g draw reply sockets pktSize pktCount pktInterval s) = [] ∧
    (∀ delay ev, Effect.schedule delay ev ∉
      stepEffects g draw reply sockets pktSize pktCount pktInterval s) := by
  have heff := effects_halt g draw reply sockets pktSize pktCount pktInterval s hrun
  unfold stepEffects
  rw [heff]
  refine ⟨rfl, ?_, by simp, by simp, ?_, ?_, ?_⟩
  · intro i hi
    rw [List.count_append, List.count_append, count_close_range, if_pos hi]
    simp
  · unfold scheduled
    rw [List.filterMap_append, List.filterMap_append]
    have h := scheduled_map_close Callback.RandomizedSocketSend (List.range sockets)
    unfold scheduled at h
    rw [h]
    rfl
  · unfold scheduled
    rw [List.filterMap_append, List.filterMap_append]
    have h := scheduled_map_close Callback.GenerateTraffic (List.range sockets)
    unfold scheduled at h
    rw [h]
    rfl
  · intro delay ev
    simp

/-- C6, at a concrete input: three sockets, the agent replies with the run flag false. -/
theorem halt_closes_every_socket_witness :
    haltAction.runSimulation = false ∧
    stepEffects twoNodes halfDraw haltAction 3 1000 1 1 startState =
      [Effect.envPublish (fillEnvironment zeroEnvironment 0 0), Effect.actionRead,
        Effect.close 0, Effect.close 1, Effect.close 2, Effect.setFinish, Effect.stop] :=
  ⟨rfl, (halt_closes_every_socket twoNodes halfDraw haltAction rfl 3 1000 1 1 startState).1⟩

theorem jitter_bounds (g : Globals) (hI : 0 < g.interval) (draw : Nat → ℚ) (i : Nat)
    (h0 : 0 ≤ draw i) (h1 : draw i < 1) :
    0 ≤ jitter g draw i ∧ jitter g draw i < g.interval / 10 := by
  unfold jitter uniform_real_distribution
  have hJ : 0 < g.interval / 10 := by positivity
  constructor
  · have := mul_nonneg h0 hJ.le
    linarith
  · have := mul_lt_mul_of_pos_right h1 hJ
    linarith

/-- C8. Multi-node variant, step interval `I > 0` (`interval = I`, and `pktInterval = I`
as `main` passes it), each canonical draw `u` of the jitter source a rational with
`0 ≤ u < 1`, the delay being `u * (I / 10)`.  A step with the run flag set schedules one
`RandomizedSocketSend` per socket, and each of them at an offset `d` with
`0 ≤ d < I / 10`; hence `d < I`, strictly before the next `GenerateTraffic`, which the
same step schedules at offset `I`. -/
theorem jitter_within_tenth (g : Globals) (hI : 0 < g.interval) (draw : Nat → ℚ)
    (hdraw : ∀ i, 0 ≤ draw i ∧ draw i < 1) (reply : NS3AgentActions)
    (hrun : reply.runSimulation = true) (sockets pktSize pktCount : Nat)
    (pktInterval : Time) (hstep : pktInterval = g.interval) (s : State) :
    (scheduled Callback.RandomizedSocketSend
      (stepEffects g draw reply sockets pktSize pktCount pktInterval s)).length = sockets ∧
    ∀ p ∈ scheduled Callback.RandomizedSocketSend
        (stepEffects g draw reply sockets pktSize pktCount pktInterval s),
      0 ≤ p.1 ∧ p.1 < g.interval / 10 ∧ p.1 < g.interval ∧
      ∀ q ∈ scheduled Callback.GenerateTraffic
        (stepEffects g draw reply sockets pktSize pktCount pktInterval s), p.1 < q.1 := by
  unfold stepEffects
  rw [scheduled_sends_run g draw reply sockets pktSize pktCount pktInterval s hrun,
    scheduled_steps_run g draw reply sockets pktSize pktCount pktInterval s hrun]
  refine ⟨by simp, ?_⟩
  intro p hp
  obtain ⟨i, -, rfl⟩ := List.mem_map.1 hp
  obtain ⟨h0, h1⟩ := jitter_bounds g hI draw i (hdraw i).1 (hdraw i).2
  have hlt : jitter g draw i < g.interval := by linarith
  refine ⟨h0, h1, hlt, ?_⟩
  intro q hq
  rw [List.mem_singleton] at hq
  subst hq
  show jitter g draw i < pktInterval
  rw [hstep]
  exact hlt

/-- C8, at a concrete input: interval one second, every draw one half, two sockets. -/
theorem jitter_within_tenth_witness :
    ((0 : ℚ) < twoNodes.interval ∧ (∀ i, 0 ≤ halfDraw i ∧ halfDraw i < 1) ∧
      sendOnNodeOne.runSimulation = true ∧ (1 : Time) = twoNodes.interval) ∧
    (scheduled Callback.RandomizedSocketSend
      (stepEffects twoNodes halfDraw sendOnNodeOne 2 1000 3 1 startState)).length = 2 ∧
    0 ≤ jitter twoNodes halfDraw 0 ∧ jitter twoNodes halfDraw 0 < twoNodes.interval / 10 := by
  have hI : (0 : ℚ) < twoNodes.interval := by
    show (0 : ℚ) < 1
    norm_num
  have hdraw : ∀ i, 0 ≤ halfDraw i ∧ halfDraw i < 1 := by
    intro i
    show (0 : ℚ) ≤ 1 / 2 ∧ (1 / 2 : ℚ) < 1
    norm_num
  have h := jitter_within_tenth twoNodes hI halfDraw hdraw sendOnNodeOne rfl 2 1000 3 1
    rfl startState
  have hmem : (jitter twoNodes halfDraw 0, sendEvent 2 1000 3 1 0) ∈
      scheduled Callback.RandomizedSocketSend
        (stepEffects twoNodes halfDraw sendOnNodeOne 2 1000 3 1 startState) := by
    unfold stepEffects
    rw [scheduled_sends_run _ _ _ _ _ _ _ _ rfl]
    exact List.mem_map.2 ⟨0, by simp, rfl⟩
  exact ⟨⟨hI, hdraw, rfl, rfl⟩, h.1, (h.2 _ hmem).1, (h.2 _ hmem).2.1⟩

/-! ### Order of publications and reads in a step -/

theorem multi_handshakes_append (a b : List Effect) :
    handshakes (a ++ b) = handshakes a ++ handshakes b := by
  unfold handshakes
  rw [List.filterMap_append]

theorem multi_handshakes_map (f : Nat → Effect) (hf : ∀ i, handshakes [f i] = [])
    (l : List Nat) : handshakes (l.map f) = [] := by
  induction l with
  | nil => rfl
  | cons a l ih =>
    rw [List.map_cons, ← List.singleton_append, multi_handshakes_append, hf a, ih]
    rfl

theorem multi_handshakes_replicate_send (node pktSize k : Nat) :
    handshakes (List.replicate k (Effect.send node pktSize)) = [] := by
  induction k with
  | zero => rfl
  | succ k ih =>
    rw [List.replicate_succ, ← List.singleton_append, multi_handshakes_append, ih]
    rfl

theorem handshakes_invocationEffects (act : NS3AgentActions) (pktSize pktCount c : Nat) :
    handshakes (invocationEffects act pktSize pktCount c) = [true] := by
  unfold invocationEffects
  rw [← List.singleton_append, multi_handshakes_append]
  by_cases hf : sendFlag act c = true
  · rw [if_pos hf, multi_handshakes_replicate_send]
    rfl
  · rw [if_neg hf]
    rfl

theorem handshakes_roundEffects (act : NS3AgentActions) (pktSize pktCount N : Nat)
    (k c : Nat) :
    handshakes (roundEffects act pktSize pktCount N c k) = List.replicate k true := by
  induction k generalizing c with
  | zero => rfl
  | succ k ih =>
    rw [roundEffects, multi_handshakes_append, handshakes_invocationEffects, ih,
      List.replicate_succ]
    rfl

theorem handshakes_stepEffects (g : Globals) (draw : Nat → ℚ) (reply : NS3AgentActions)
    (sockets pktSize pktCount : Nat) (pktInterval : Time) (s : State) :
    handshakes (stepEffects g draw reply sockets pktSize pktCount pktInterval s) =
      [false, true] := by
  unfold stepEffects
  cases hrun : reply.runSimulation
  · rw [effects_halt g draw reply sockets pktSize pktCount pktInterval s hrun,
      multi_handshakes_append, multi_handshakes_append,
      multi_handshakes_map Effect.close (fun _ => rfl)]
    rfl
  · rw [effects_run g draw reply sockets pktSize pktCount pktInterval s hrun,
      multi_handshakes_append, multi_handshakes_append,
      multi_handshakes_map (fun i => Effect.schedule (jitter g draw i)
        (sendEvent sockets pktSize pktCount pktInterval i)) (fun _ => rfl)]
    rfl

theorem scheduled_sends_halt (g : Globals) (draw : Nat → ℚ) (reply : NS3AgentActions)
    (sockets pktSize pktCount : Nat) (pktInterval : Time) (s : State)
    (hrun : reply.runSimulation = false) :
    scheduled Callback.RandomizedSocketSend
      (stepEffects g draw reply sockets pktSize pktCount pktInterval s) = [] := by
  unfold stepEffects
  rw [effects_halt g draw reply sockets pktSize pktCount pktInterval s hrun]
  unfold scheduled
  rw [List.filterMap_append, List.filterMap_append]
  have h := scheduled_map_close Callback.RandomizedSocketSend (List.range sockets)
  unfold scheduled at h
  rw [h]
  rfl

theorem complete_step_handshakes (N : Nat) (hN1 : 1 ≤ N) (hN10 : N ≤ 10) (g : Globals)
    (hg : g.numNodes = N) (draw : Nat → ℚ) (reply : NS3AgentActions)
    (pktSize pktCount : Nat) (pktInterval : Time) (s : State) (c : Nat) (hc : c < N)
    (hcur : s.nodeNum = (c : Int)) (order : List (Time × Event))
    (horder : order.Perm (scheduled Callback.RandomizedSocketSend
      (stepEffects g draw reply N pktSize pktCount pktInterval s))) :
    ∃ s', fireAll g draw reply (order.map Prod.snd)
        (GenerateTraffic g draw reply N pktSize pktCount pktInterval s) = some s' ∧
      handshakes (effectsSince s s') = false :: List.replicate (1 + order.length) true := by
  have hstep := handshakes_stepEffects g draw reply N pktSize pktCount pktInterval s
  cases hrun : reply.runSimulation
  · rw [scheduled_sends_halt g draw reply N pktSize pktCount pktInterval s hrun] at horder
    have hnil : order = [] := horder.eq_nil
    subst hnil
    exact ⟨_, rfl, hstep⟩
  · have hshape : ∀ ev ∈ order.map Prod.snd,
        ev.callback = Callback.RandomizedSocketSend ∧ ev.sockets = N ∧
          ev.pktSize = pktSize ∧ ev.pktCount = pktCount := by
      unfold stepEffects at horder
      rw [scheduled_sends_run g draw reply N pktSize pktCount pktInterval s hrun] at horder
      intro ev hev
      obtain ⟨p, hp, rfl⟩ := List.mem_map.1 hev
      obtain ⟨i, -, rfl⟩ := List.mem_map.1 (horder.mem_iff.1 hp)
      exact ⟨rfl, rfl, rfl, rfl⟩
    have hstart : (GenerateTraffic g draw reply N pktSize pktCount pktInterval s).nodeNum =
        (c : Int) := by
      rw [GenerateTraffic_run g draw reply N pktSize pktCount pktInterval s hrun]
      exact hcur
    obtain ⟨s', hfire, -, -, -, -, -, htr⟩ :=
      fireAll_sends g draw reply N pktSize pktCount hN1 hN10 hg (order.map Prod.snd) hshape
        c hc (GenerateTraffic g draw reply N pktSize pktCount pktInterval s) hstart
    refine ⟨s', hfire, ?_⟩
    have hgt : (GenerateTraffic g draw reply N pktSize pktCount pktInterval s).trace =
        s.trace ++ stepEffects g draw reply N pktSize pktCount pktInterval s := by
      rw [GenerateTraffic_run g draw reply N pktSize pktCount pktInterval s hrun]
      unfold stepEffects
      rw [effects_run g draw reply N pktSize pktCount pktInterval s hrun]
    rw [hgt, List.append_assoc] at htr
    rw [effectsSince_append s s' _ htr, multi_handshakes_append, hstep,
      handshakes_roundEffects, List.length_map]
    simp [List.replicate_succ, Nat.add_comm]

/-! ### The cursor stays in range -/

theorem sendLoop_nodeNum (sockets pktSize : Nat) (nodeNum : Int) (k : Nat)
    (s s' : State) (h : sendLoop sockets pktSize nodeNum k s = some s') :
    s'.nodeNum = s.nodeNum := by
  induction k generalizing s with
  | zero =>
    simp only [sendLoop, Option.some.injEq] at h
    rw [← h]
  | succ k ih =>
    rw [sendLoop] at h
    split at h
    · have hk := ih _ h
      exact hk
    · exact Option.noConfusion h

theorem RandomizedSocketSend_cursor (g : Globals) (sockets pktSize pktCount : Nat)
    (pktInterval : Time) (s s' : State)
    (h : RandomizedSocketSend g sockets pktSize pktCount pktInterval s = some s') :
    0 ≤ s.nodeNum ∧ s.nodeNum < 10 ∧
      s'.nodeNum = advanceCursor g.numNodes s.nodeNum := by
  unfold RandomizedSocketSend at h
  dsimp only at h
  split at h
  · next hr =>
    refine ⟨hr.1, hr.2, ?_⟩
    split at h
    · cases hloop : sendLoop sockets pktSize s.nodeNum pktCount
          { s with trace := s.trace ++ [Effect.actionRead] } with
      | none =>
        rw [hloop] at h
        exact Option.noConfusion h
      | some s2 =>
        rw [hloop, Option.map_some'] at h
        have hk := sendLoop_nodeNum _ _ _ _ _ _ hloop
        have hk' : s2.nodeNum = s.nodeNum := hk
        rw [← Option.some.inj h, ← hk']
    · rw [Option.map_some'] at h
      rw [← Option.some.inj h]
  · exact Option.noConfusion h

theorem advanceCursor_in_range (N : Nat) (hN1 : 1 ≤ N) (hN32 : N < 4294967296) (c : Int)
    (h0 : 0 ≤ c) (hc : c < N) :
    advanceCursor N c = (c + 1) % (N : Int) ∧ 0 ≤ advanceCursor N c ∧
      advanceCursor N c < N := by
  obtain ⟨k, rfl⟩ := Int.eq_ofNat_of_zero_le h0
  have hk : k < N := by exact_mod_cast hc
  rw [advanceCursor_eq N k hN1 hN32 hk]
  have hlt : (k + 1) % N < N := Nat.mod_lt _ (by omega)
  refine ⟨by push_cast; rfl, by positivity, by exact_mod_cast hlt⟩

theorem fireAll_in_range (N : Nat) (hN1 : 1 ≤ N) (hN10 : N ≤ 10) (g : Globals)
    (hg : g.numNodes = N) (draw : Nat → ℚ) (reply : NS3AgentActions) (evs : List Event)
    (hevs : ∀ ev ∈ evs, ev.sockets = N) (s : State) (h0 : 0 ≤ s.nodeNum)
    (hc : s.nodeNum < N) :
    ∃ s', fireAll g draw reply evs s = some s' ∧ 0 ≤ s'.nodeNum ∧ s'.nodeNum < N := by
  induction evs generalizing s with
  | nil => exact ⟨s, rfl, h0, hc⟩
  | cons ev rest ih =>
    have hrest : ∀ e ∈ rest, e.sockets = N := fun e he => hevs e (List.mem_cons_of_mem _ he)
    have hsock := hevs ev (List.mem_cons_self _ _)
    cases hcb : ev.callback with
    | GenerateTraffic =>
      have hn : (GenerateTraffic g draw reply ev.sockets ev.pktSize ev.pktCount
          ev.pktInterval s).nodeNum = s.nodeNum := by
        cases hrun : reply.runSimulation
        · rw [GenerateTraffic_halt g draw reply _ _ _ _ s hrun]
        · rw [GenerateTraffic_run g draw reply _ _ _ _ s hrun]
      obtain ⟨s', hfire, hr⟩ := ih hrest
        (GenerateTraffic g draw reply ev.sockets ev.pktSize ev.pktCount ev.pktInterval s)
        (by rw [hn]; exact h0) (by rw [hn]; exact hc)
      refine ⟨s', ?_, hr⟩
      simp only [fireAll, fire, hcb, Option.some_bind, hfire]
    | RandomizedSocketSend =>
      obtain ⟨k, hk⟩ := Int.eq_ofNat_of_zero_le h0
      have hkN : k < N := by rw [hk] at hc; exact_mod_cast hc
      obtain ⟨s1, h1, hn1, -⟩ :=
        RandomizedSocketSend_eq g N ev.pktSize ev.pktCount ev.pktInterval s k hk
          (by omega) hkN
      rw [hg] at hn1
      obtain ⟨-, hlo, hhi⟩ := advanceCursor_in_range N hN1 (by omega) (k : Int)
        (by positivity) (by exact_mod_cast hkN)
      obtain ⟨s', hfire, hr⟩ := ih hrest s1 (by rw [hn1]; exact hlo) (by rw [hn1]; exact hhi)
      refine ⟨s', ?_, hr⟩
      simp only [fireAll, fire, hcb, hsock, h1, Option.some_bind, hfire]

/-- C13. Multi-node variant, `numNodes = N ≥ 1` (a `uint32_t`).  The cursor is 0 at
process start; every `RandomizedSocketSend` invocation entered with
`0 ≤ nodeNum < N` that is defined leaves `nodeNum = (nodeNum + 1) mod N`, again in
`[0, N)`, whatever the action record holds.  For `N ≤ 10` and `sockets.size () = N` the
invocation is always defined from such a cursor (both subscripts are in range), and
so is every sequence of callbacks from process start, which ends with the cursor in
`[0, N)`.  With `numNodes = 0` the comparison is against `2^32 - 1` and the cursor
only grows. -/
theorem cursor_stays_in_range (N : Nat) (hN1 : 1 ≤ N) (hN32 : N < 4294967296)
    (g : Globals) (hg : g.numNodes = N) :
    (∀ env act, (initial env act).nodeNum = 0) ∧
    (∀ sockets pktSize pktCount pktInterval (s s' : State),
      0 ≤ s.nodeNum → s.nodeNum < N →
      RandomizedSocketSend g sockets pktSize pktCount pktInterval s = some s' →
        s'.nodeNum = (s.nodeNum + 1) % (N : Int) ∧ 0 ≤ s'.nodeNum ∧ s'.nodeNum < N) ∧
    (N ≤ 10 → ∀ pktSize pktCount pktInterval (s : State),
      0 ≤ s.nodeNum → s.nodeNum < N →
        ∃ s', RandomizedSocketSend g N pktSize pktCount pktInterval s = some s') ∧
    (N ≤ 10 → ∀ draw reply (evs : List Event), (∀ ev ∈ evs, ev.sockets = N) →
      ∀ env act, ∃ s', fireAll g draw reply evs (initial env act) = some s' ∧
        0 ≤ s'.nodeNum ∧ s'.nodeNum < N) ∧
    (∀ c : Int, 0 ≤ c → c < 4294967295 → advanceCursor 0 c = c + 1) := by
  refine ⟨fun _ _ => rfl, ?_, ?_, ?_, ?_⟩
  · intro sockets pktSize pktCount pktInterval s s' h0 hc h
    obtain ⟨-, -, hn⟩ := RandomizedSocketSend_cursor g sockets pktSize pktCount pktInterval
      s s' h
    rw [hn, hg]
    exact advanceCursor_in_range N hN1 hN32 s.nodeNum h0 hc
  · intro hN10 pktSize pktCount pktInterval s h0 hc
    obtain ⟨k, hk⟩ := Int.eq_ofNat_of_zero_le h0
    have hkN : k < N := by rw [hk] at hc; exact_mod_cast hc
    obtain ⟨s', h, -⟩ :=
      RandomizedSocketSend_eq g N pktSize pktCount pktInterval s k hk (by omega) hkN
    exact ⟨s', h⟩
  · intro hN10 draw reply evs hevs env act
    exact fireAll_in_range N hN1 hN10 g hg draw reply evs hevs (initial env act)
      (le_refl _) (by
        show (0 : Int) < N
        exact_mod_cast hN1)
  · intro c h0 hc
    unfold advanceCursor toUInt32
    have h1 : (4294967295 + 0) % 4294967296 = 4294967295 := by norm_num
    have h2 : (c % 4294967296).toNat < 4294967295 := by omega
    rw [h1, if_pos h2]

/-- C13, at a concrete input: two nodes, the cursor on the last node. -/
theorem cursor_stays_in_range_witness :
    (1 ≤ 2 ∧ 2 < 4294967296 ∧ twoNodes.numNodes = 2 ∧
      (0 : Int) ≤ ({ startState with nodeNum := 1 } : State).nodeNum ∧
      ({ startState with nodeNum := 1 } : State).nodeNum < ((2 : Nat) : Int)) ∧
    (RandomizedSocketSend twoNodes 2 1000 3 1 { startState with nodeNum := 1 }).map
      State.nodeNum = some 0 := by
  have h := cursor_stays_in_range 2 (by decide) (by decide) twoNodes rfl
  obtain ⟨s', hs'⟩ := h.2.2.1 (by decide) 1000 3 1 { startState with nodeNum := 1 }
    (by decide) (by decide)
  have hn := (h.2.1 2 1000 3 1 { startState with nodeNum := 1 } s' (by decide) (by decide)
    hs').1
  refine ⟨⟨by decide, by decide, rfl, by decide, by decide⟩, ?_⟩
  rw [hs', Option.map_some', hn]
  rfl

end RLWifiNS3AI

/-! ## Single-node variant: basic facts -/

namespace WifiSimpleAdhoc

theorem adhoc_sendLoop_eq (pktSize k : Nat) (s : State) :
    sendLoop pktSize k s =
      { s with
        numPackets := s.numPackets + k
        trace := s.trace ++ List.replicate k (Effect.send 0 pktSize) } := by
  induction k generalizing s with
  | zero => simp [sendLoop]
  | succ k ih =>
    rw [sendLoop, ih]
    simp [List.replicate_succ]
    omega

theorem adhoc_effectsSince_append (s s' : State) (l : List Effect)
    (h : s'.trace = s.trace ++ l) : effectsSince s s' = l := by
  unfold effectsSince
  rw [h, List.drop_left]

theorem GenerateTraffic_continue (sockets pktSize pktCount : Nat) (pktInterval : Time)
    (s : State) (hread : s.act.new_ssThresh = 1) (hend : s.endSimulation = false) :
    GenerateTraffic sockets pktSize pktCount pktInterval s =
      { s with
        act := { s.act with new_ssThresh := 0 }
        numPackets := s.numPackets + pktCount
        trace := s.trace ++
          (Effect.actionRead :: List.replicate pktCount (Effect.send 0 pktSize) ++
            rearm sockets pktSize pktCount pktInterval) } := by
  unfold GenerateTraffic
  simp only [hread, if_true, adhoc_sendLoop_eq, hend, Schedule]
  simp [rearm, reportEvent, stepEvent]

theorem GenerateTraffic_terminate (sockets pktSize pktCount : Nat) (pktInterval : Time)
    (s : State) (hread : s.act.new_ssThresh = 1234) :
    GenerateTraffic sockets pktSize pktCount pktInterval s =
      { s with
        endSimulation := true
        trace := s.trace ++
          [Effect.actionRead, Effect.close 0, Effect.setFinish, Effect.stop] } := by
  unfold GenerateTraffic
  simp [hread]

theorem GenerateTraffic_first (sockets pktSize pktCount : Nat) (pktInterval : Time)
    (s : State) (h1 : s.act.new_ssThresh ≠ 1) (h2 : s.act.new_ssThresh ≠ 1234)
    (hfirst : s.firstTime = true) (hend : s.endSimulation = false) :
    GenerateTraffic sockets pktSize pktCount pktInterval s =
      { s with
        firstTime := false
        numPackets := s.numPackets + 1
        trace := s.trace ++
          ([Effect.actionRead, Effect.send 0 pktSize] ++
            rearm sockets pktSize pktCount pktInterval) } := by
  unfold GenerateTraffic
  simp only [h1, h2, hfirst, if_true, if_false, hend, Schedule]
  simp [rearm, reportEvent, stepEvent]

theorem GenerateTraffic_invalid (sockets pktSize pktCount : Nat) (pktInterval : Time)
    (s : State) (h1 : s.act.new_ssThresh ≠ 1) (h2 : s.act.new_ssThresh ≠ 1234)
    (hfirst : s.firstTime = false) (hend : s.endSimulation = false) :
    GenerateTraffic sockets pktSize pktCount pktInterval s =
      { s with
        trace := s.trace ++
          ([Effect.actionRead, Effect.incorrectState] ++
            rearm sockets pktSize pktCount pktInterval) } := by
  unfold GenerateTraffic
  simp only [h1, h2, hfirst, if_false, hend, Schedule]
  simp [rearm, reportEvent, stepEvent]

theorem activities_endSimulation (pktSize pktCount : Nat) (pktInterval : Time)
    (before : List Activity) (s : State) :
    (before.foldl (fun st a => Activity.apply pktSize pktCount pktInterval a st)
      s).endSimulation = s.endSimulation := by
  induction before generalizing s with
  | nil => rfl
  | cons a rest ih =>
    rw [List.foldl_cons, ih]
    cases a <;> rfl

theorem stop_mem_of_terminate (sockets pktSize pktCount : Nat) (pktInterval : Time)
    (s : State) (hread : s.act.new_ssThresh = 1234) :
    Effect.stop ∈
      effectsSince s (GenerateTraffic sockets pktSize pktCount pktInterval s) := by
  rw [adhoc_effectsSince_append s _ _
    (by rw [GenerateTraffic_terminate sockets pktSize pktCount pktInterval s hread])]
  simp

theorem endSimulation_of_not_terminate (sockets pktSize pktCount : Nat)
    (pktInterval : Time) (s : State) (hread : s.act.new_ssThresh ≠ 1234)
    (hend : s.endSimulation = false) :
    (GenerateTraffic sockets pktSize pktCount pktInterval s).endSimulation = false := by
  by_cases h1 : s.act.new_ssThresh = 1
  · rw [GenerateTraffic_continue sockets pktSize pktCount pktInterval s h1 hend]
    exact hend
  · cases hfirst : s.firstTime
    · rw [GenerateTraffic_invalid sockets pktSize pktCount pktInterval s h1 hread hfirst hend]
      exact hend
    · rw [GenerateTraffic_first sockets pktSize pktCount pktInterval s h1 hread hfirst hend]
      exact hend

theorem runSteps_invariant (sockets pktSize pktCount : Nat) (pktInterval : Time)
    (inputs : List StepInput) (s : State) (hend : s.endSimulation = false)
    (r : StepRecord) (hr : r ∈ runSteps sockets pktSize pktCount pktInterval inputs s) :
    r.pre.endSimulation = false ∧
      r.post = GenerateTraffic sockets pktSize pktCount pktInterval r.pre := by
  induction inputs generalizing s with
  | nil => simp [runSteps] at hr
  | cons input rest ih =>
    rw [runSteps] at hr
    simp only [List.mem_cons] at hr
    have hpre : ({ (input.before.foldl
        (fun st a => Activity.apply pktSize pktCount pktInterval a st) s) with
          act := input.read } : State).endSimulation = false := by
      show (input.before.foldl
        (fun st a => Activity.apply pktSize pktCount pktInterval a st) s).endSimulation = false
      rw [activities_endSimulation, hend]
    rcases hr with hr | hr
    · subst hr
      exact ⟨hpre, rfl⟩
    · split at hr
      · next hcond =>
        refine ih _ ?_ hr
        apply endSimulation_of_not_terminate _ _ _ _ _ _ hpre
        intro h1234
        exact hcond.1 (stop_mem_of_terminate sockets pktSize pktCount pktInterval _ h1234)
      · simp at hr

theorem effects_continue (sockets pktSize pktCount : Nat) (pktInterval : Time)
    (s : State) (hread : s.act.new_ssThresh = 1) (hend : s.endSimulation = false) :
    stepEffects sockets pktSize pktCount pktInterval s =
      Effect.actionRead :: List.replicate pktCount (Effect.send 0 pktSize) ++
        rearm sockets pktSize pktCount pktInterval := by
  apply adhoc_effectsSince_append
  rw [GenerateTraffic_continue sockets pktSize pktCount pktInterval s hread hend]

theorem effects_terminate (sockets pktSize pktCount : Nat) (pktInterval : Time)
    (s : State) (hread : s.act.new_ssThresh = 1234) :
    stepEffects sockets pktSize pktCount pktInterval s =
      [Effect.actionRead, Effect.close 0, Effect.setFinish, Effect.stop] := by
  apply adhoc_effectsSince_append
  rw [GenerateTraffic_terminate sockets pktSize pktCount pktInterval s hread]

theorem effects_first (sockets pktSize pktCount : Nat) (pktInterval : Time)
    (s : State) (h1 : s.act.new_ssThresh ≠ 1) (h2 : s.act.new_ssThresh ≠ 1234)
    (hfirst : s.firstTime = true) (hend : s.endSimulation = false) :
    stepEffects sockets pktSize pktCount pktInterval s =
      [Effect.actionRead, Effect.send 0 pktSize] ++
        rearm sockets pktSize pktCount pktInterval := by
  apply adhoc_effectsSince_append
  rw [GenerateTraffic_first sockets pktSize pktCount pktInterval s h1 h2 hfirst hend]

theorem effects_invalid (sockets pktSize pktCount : Nat) (pktInterval : Time)
    (s : State) (h1 : s.act.new_ssThresh ≠ 1) (h2 : s.act.new_ssThresh ≠ 1234)
    (hfirst : s.firstTime = false) (hend : s.endSimulation = false) :
    stepEffects sockets pktSize pktCount pktInterval s =
      [Effect.actionRead, Effect.incorrectState] ++
        rearm sockets pktSize pktCount pktInterval := by
  apply adhoc_effectsSince_append
  rw [GenerateTraffic_invalid sockets pktSize pktCount pktInterval s h1 h2 hfirst hend]

theorem sends_replicate (pktSize k : Nat) (l : List Effect) :
    sends (List.replicate k (Effect.send 0 pktSize) ++ l) = k + sends l := by
  unfold sends
  rw [List.countP_append, List.countP_replicate]
  simp

theorem sends_rearm (sockets pktSize pktCount : Nat) (pktInterval : Time) :
    sends (rearm sockets pktSize pktCount pktInterval) = 0 := rfl

theorem scheduled_rearm (sockets pktSize pktCount : Nat) (pktInterval : Time) :
    scheduled Callback.GenerateTraffic (rearm sockets pktSize pktCount pktInterval) =
      [(pktInterval, stepEvent sockets pktSize pktCount pktInterval)] := by
  simp [scheduled, rearm, reportEvent, stepEvent]

theorem scheduled_replicate_send (cb : Callback) (pktSize k : Nat) :
    scheduled cb (List.replicate k (Effect.send 0 pktSize)) = [] := by
  induction k with
  | zero => rfl
  | succ k ih =>
    rw [List.replicate_succ]
    unfold scheduled at ih ⊢
    rw [List.filterMap_cons]
    exact ih

theorem rearmed_iff (sockets pktSize pktCount : Nat) (pktInterval : Time) (pre : State)
    (hend : pre.endSimulation = false) :
    (Effect.stop ∉
        effectsSince pre (GenerateTraffic sockets pktSize pktCount pktInterval pre) ∧
      scheduled Callback.GenerateTraffic
        (effectsSince pre (GenerateTraffic sockets pktSize pktCount pktInterval pre)) ≠
          []) ↔
      pre.act.new_ssThresh ≠ 1234 := by
  constructor
  · intro hcond hterm
    exact hcond.1 (stop_mem_of_terminate sockets pktSize pktCount pktInterval pre hterm)
  · intro hterm
    by_cases h1 : pre.act.new_ssThresh = 1
    · have h := effects_continue sockets pktSize pktCount pktInterval pre h1 hend
      unfold stepEffects at h
      rw [h]
      simp [rearm, scheduled, reportEvent, stepEvent]
    · cases hft : pre.firstTime
      · have h := effects_invalid sockets pktSize pktCount pktInterval pre h1 hterm hft hend
        unfold stepEffects at h
        rw [h]
        simp [rearm, scheduled, reportEvent, stepEvent]
      · have h := effects_first sockets pktSize pktCount pktInterval pre h1 hterm hft hend
        unfold stepEffects at h
        rw [h]
        simp [rearm, scheduled, reportEvent, stepEvent]

/-- The steps of a run, one input at a time: the run goes on after a step exactly when
the step did not read the terminate sentinel. -/
theorem runSteps_cons (sockets pktSize pktCount : Nat) (pktInterval : Time)
    (input : StepInput) (rest : List StepInput) (s : State)
    (hend : s.endSimulation = false) :
    ∃ pre post, pre.act = input.read ∧ pre.endSimulation = false ∧
      pre.firstTime = s.firstTime ∧
      post = GenerateTraffic sockets pktSize pktCount pktInterval pre ∧
      (input.read.new_ssThresh ≠ 1234 → post.endSimulation = false) ∧
      runSteps sockets pktSize pktCount pktInterval (input :: rest) s =
        ⟨pre, post⟩ ::
          (if input.read.new_ssThresh = 1234 then []
           else runSteps sockets pktSize pktCount pktInterval rest post) := by
  have hfirst : ∀ (before : List Activity) (st : State),
      (before.foldl (fun st a => Activity.apply pktSize pktCount pktInterval a st)
        st).firstTime = st.firstTime := by
    intro before
    induction before with
    | nil => intro st; rfl
    | cons a l ih =>
      intro st
      rw [List.foldl_cons, ih]
      cases a <;> rfl
  have hpre : ({ (input.before.foldl
      (fun st a => Activity.apply pktSize pktCount pktInterval a st) s) with
        act := input.read } : State).endSimulation = false := by
    show (input.before.foldl
      (fun st a => Activity.apply pktSize pktCount pktInterval a st) s).endSimulation = false
    rw [activities_endSimulation, hend]
  refine ⟨_, _, rfl, hpre, hfirst input.before s, rfl, ?_, ?_⟩
  · intro hne
    exact endSimulation_of_not_terminate _ _ _ _ _ hne hpre
  · rw [runSteps]
    congr 1
    by_cases hterm : input.read.new_ssThresh = 1234
    · rw [if_pos hterm, if_neg]
      intro hcond
      exact (rearmed_iff sockets pktSize pktCount pktInterval _ hpre).1 hcond hterm
    · rw [if_neg hterm, if_pos]
      exact (rearmed_iff sockets pktSize pktCount pktInterval _ hpre).2 hterm

/-- C3, refuted as stated.  A run whose first step reads the continue sentinel and
whose second step reads 7 (neither 1 nor 1234): the second step sends one packet, not
zero, because the one-shot flag `firstTime` is still set. -/
theorem invalid_action_counterexample :
    (runSteps 4 1000 2 1 [reading 1, reading 7] (startState 0)).map
      (fun r => (r.pre.act.new_ssThresh, r.pre.firstTime, sends r.effects)) =
        [(1, true, 2), (7, true, 1)] := by
  decide

theorem GenerateTraffic_firstTime (sockets pktSize pktCount : Nat) (pktInterval : Time)
    (s : State) (hend : s.endSimulation = false) :
    (GenerateTraffic sockets pktSize pktCount pktInterval s).firstTime =
      (if s.act.new_ssThresh = 1 ∨ s.act.new_ssThresh = 1234 then s.firstTime
       else false) := by
  by_cases h1 : s.act.new_ssThresh = 1
  · rw [GenerateTraffic_continue sockets pktSize pktCount pktInterval s h1 hend,
      if_pos (Or.inl h1)]
  · by_cases h2 : s.act.new_ssThresh = 1234
    · rw [GenerateTraffic_terminate sockets pktSize pktCount pktInterval s h2,
        if_pos (Or.inr h2)]
    · rw [if_neg (fun h => h.elim h1 h2)]
      cases hft : s.firstTime
      · rw [GenerateTraffic_invalid sockets pktSize pktCount pktInterval s h1 h2 hft hend]
        exact hft
      · rw [GenerateTraffic_first sockets pktSize pktCount pktInterval s h1 h2 hft hend]

/-- The one-shot flag along a run: at an executed step `firstTime` is still set exactly
when it was set at the start of the run and every earlier step read the continue
sentinel. -/
theorem runSteps_firstTime (sockets pktSize pktCount : Nat) (pktInterval : Time)
    (inputs : List StepInput) (s : State) (hend : s.endSimulation = false)
    (earlier later : List StepRecord) (r : StepRecord)
    (hrun : runSteps sockets pktSize pktCount pktInterval inputs s =
      earlier ++ r :: later) :
    r.pre.firstTime = true ↔
      (s.firstTime = true ∧ ∀ e ∈ earlier, e.pre.act.new_ssThresh = 1) := by
  induction inputs generalizing s earlier with
  | nil =>
    rw [runSteps] at hrun
    exact absurd hrun.symm (List.append_ne_nil_of_right_ne_nil _ (List.cons_ne_nil _ _))
  | cons input rest ih =>
    obtain ⟨pre, post, hact, hpend, hpft, hpost, hpe, hcons⟩ :=
      runSteps_cons sockets pktSize pktCount pktInterval input rest s hend
    rw [hcons] at hrun
    cases earlier with
    | nil =>
      rw [List.nil_append] at hrun
      have hhead := (List.cons.inj hrun).1
      rw [← hhead]
      show pre.firstTime = true ↔ _
      rw [hpft]
      simp
    | cons e earlier' =>
      rw [List.cons_append] at hrun
      obtain ⟨hhead, htail⟩ := List.cons.inj hrun
      by_cases hterm : input.read.new_ssThresh = 1234
      · rw [if_pos hterm] at htail
        exact absurd htail.symm
          (List.append_ne_nil_of_right_ne_nil _ (List.cons_ne_nil _ _))
      · rw [if_neg hterm] at htail
        have hk := ih post (hpe hterm) earlier' htail
        rw [hk, hpost, GenerateTraffic_firstTime sockets pktSize pktCount pktInterval pre
          hpend, hpft, ← hhead]
        have hread : pre.act.new_ssThresh = input.read.new_ssThresh := by rw [hact]
        have hterm' : pre.act.new_ssThresh ≠ 1234 := by rw [hread]; exact hterm
        show _ ↔ s.firstTime = true ∧ ∀ x ∈ (⟨pre, post⟩ : StepRecord) :: earlier',
          x.pre.act.new_ssThresh = 1
        rw [List.forall_mem_cons]
        show _ ↔ s.firstTime = true ∧ pre.act.new_ssThresh = 1 ∧ _
        by_cases h1 : pre.act.new_ssThresh = 1
        · rw [if_pos (Or.inl h1)]
          simp [h1]
        · rw [if_neg (fun h => h.elim h1 hterm')]
          simp [h1]

/-- C3 (amended).  Single-node variant, any run from process start, any executed step
whose action value is neither 1 nor 1234.  The step sends exactly one packet, on
`sockets[0]`, if the one-shot flag `firstTime` is still set when it runs, and no packet
if the flag has been cleared; on return the flag is cleared.  The flag is still set at
the step exactly when every earlier step of the run read the continue sentinel 1, so
the one packet is sent by the first step of the run that reads a value other than 1,
and every later such step sends none.  In both cases the socket is not closed, finish
is not signalled, the event loop is not stopped, and the step re-arms: it schedules the
next report and exactly one `GenerateTraffic`, at delay `pktInterval`. -/
theorem invalid_action_after_bootstrap (sockets pktSize pktCount : Nat)
    (pktInterval : Time) (env : NS3Environment) (act : NS3AgentActions)
    (inputs : List StepInput) (r : StepRecord)
    (hr : r ∈ runSteps sockets pktSize pktCount pktInterval inputs (initial env act))
    (h1 : r.pre.act.new_ssThresh ≠ 1) (h2 : r.pre.act.new_ssThresh ≠ 1234) :
    sends r.effects = (if r.pre.firstTime = true then 1 else 0) ∧
    sendsOn 0 r.effects = sends r.effects ∧
    (∀ i, Effect.close i ∉ r.effects) ∧
    Effect.setFinish ∉ r.effects ∧
    Effect.stop ∉ r.effects ∧
    scheduled Callback.GenerateTraffic r.effects =
      [(pktInterval, stepEvent sockets pktSize pktCount pktInterval)] ∧
    r.post.firstTime = false ∧
    (∀ earlier later : List StepRecord,
      runSteps sockets pktSize pktCount pktInterval inputs (initial env act) =
        earlier ++ r :: later →
      ((r.pre.firstTime = true ↔ ∀ e ∈ earlier, e.pre.act.new_ssThresh = 1) ∧
        (sends r.effects = 1 ↔ ∀ e ∈ earlier, e.pre.act.new_ssThresh = 1) ∧
        ∀ e ∈ later, e.pre.firstTime = false)) := by
  obtain ⟨hend, hpost⟩ :=
    runSteps_invariant sockets pktSize pktCount pktInterval inputs _ rfl r hr
  have heff : r.effects = stepEffects sockets pktSize pktCount pktInterval r.pre := by
    unfold StepRecord.effects stepEffects
    rw [hpost]
  have hsends : sends r.effects = (if r.pre.firstTime = true then 1 else 0) := by
    rw [heff]
    cases hft : r.pre.firstTime
    · rw [effects_invalid sockets pktSize pktCount pktInterval r.pre h1 h2 hft hend]
      simp [rearm, sends]
    · rw [effects_first sockets pktSize pktCount pktInterval r.pre h1 h2 hft hend]
      simp [rearm, sends]
  have hflag : ∀ earlier later : List StepRecord,
      runSteps sockets pktSize pktCount pktInterval inputs (initial env act) =
        earlier ++ r :: later →
      (r.pre.firstTime = true ↔ ∀ e ∈ earlier, e.pre.act.new_ssThresh = 1) := by
    intro earlier later hrun
    have hk := runSteps_firstTime sockets pktSize pktCount pktInterval inputs
      (initial env act) rfl earlier later r hrun
    rw [hk]
    exact ⟨fun h => h.2, fun h => ⟨rfl, h⟩⟩
  refine ⟨hsends, ?_, ?_, ?_, ?_, ?_, ?_, ?_⟩
  · rw [heff]
    cases hft : r.pre.firstTime
    · rw [effects_invalid sockets pktSize pktCount pktInterval r.pre h1 h2 hft hend]
      simp [rearm, sends, sendsOn]
    · rw [effects_first sockets pktSize pktCount pktInterval r.pre h1 h2 hft hend]
      simp [rearm, sends, sendsOn]
  · rw [heff]
    cases hft : r.pre.firstTime
    · rw [effects_invalid sockets pktSize pktCount pktInterval r.pre h1 h2 hft hend]
      simp [rearm]
    · rw [effects_first sockets pktSize pktCount pktInterval r.pre h1 h2 hft hend]
      simp [rearm]
  · rw [heff]
    cases hft : r.pre.firstTime
    · rw [effects_invalid sockets pktSize pktCount pktInterval r.pre h1 h2 hft hend]
      simp [rearm]
    · rw [effects_first sockets pktSize pktCount pktInterval r.pre h1 h2 hft hend]
      simp [rearm]
  · rw [heff]
    cases hft : r.pre.firstTime
    · rw [effects_invalid sockets pktSize pktCount pktInterval r.pre h1 h2 hft hend]
      simp [rearm]
    · rw [effects_first sockets pktSize pktCount pktInterval r.pre h1 h2 hft hend]
      simp [rearm]
  · rw [heff]
    cases hft : r.pre.firstTime
    · rw [effects_invalid sockets pktSize pktCount pktInterval r.pre h1 h2 hft hend]
      simp [rearm, scheduled, reportEvent, stepEvent]
    · rw [effects_first sockets pktSize pktCount pktInterval r.pre h1 h2 hft hend]
      simp [rearm, scheduled, reportEvent, stepEvent]
  · rw [hpost, GenerateTraffic_firstTime sockets pktSize pktCount pktInterval r.pre hend,
      if_neg (fun h => h.elim h1 h2)]
  · intro earlier later hrun
    refine ⟨hflag earlier later hrun, ?_, ?_⟩
    · rw [← hflag earlier later hrun, hsends]
      cases r.pre.firstTime <;> simp
    · intro e he
      obtain ⟨l1, l2, hsplit⟩ := List.append_of_mem he
      have hrun2 : runSteps sockets pktSize pktCount pktInterval inputs (initial env act) =
          (earlier ++ r :: l1) ++ e :: l2 := by
        rw [hrun, hsplit, List.append_assoc, List.cons_append]
      have hk := runSteps_firstTime sockets pktSize pktCount pktInterval inputs
        (initial env act) rfl (earlier ++ r :: l1) l2 e hrun2
      cases hft : e.pre.firstTime
      · rfl
      · exact absurd ((hk.1 hft).2 r (List.mem_append_right _ (List.mem_cons_self _ _))) h1

/-- C3 (amended), at a concrete input: the second step of a run reads 5 after the
first step, which read 0, has used the one-shot send. -/
theorem invalid_action_after_bootstrap_witness :
    (secondRead.act.new_ssThresh ≠ 1 ∧ secondRead.act.new_ssThresh ≠ 1234 ∧
      secondRead.firstTime = false) ∧
    sends (effectsSince secondRead (GenerateTraffic 4 1000 1 1 secondRead)) = 0 ∧
    (GenerateTraffic 4 1000 1 1 secondRead).firstTime = false := by
  have hmem : (⟨secondRead, GenerateTraffic 4 1000 1 1 secondRead⟩ : StepRecord) ∈
      runSteps 4 1000 1 1 [reading 0, reading 5] (initial zeroEnvironment ⟨0, 0⟩) :=
    List.mem_cons_of_mem _ (List.mem_cons_self _ _)
  have h := invalid_action_after_bootstrap 4 1000 1 1 zeroEnvironment ⟨0, 0⟩
    [reading 0, reading 5] _ hmem (by decide) (by decide)
  exact ⟨⟨by decide, by decide, by decide⟩, h.1, h.2.2.2.2.2.2.1⟩

theorem sends_continue (sockets pktSize pktCount : Nat) (pktInterval : Time)
    (s : State) (hread : s.act.new_ssThresh = 1) (hend : s.endSimulation = false) :
    sends (stepEffects sockets pktSize pktCount pktInterval s) = pktCount := by
  rw [effects_continue sockets pktSize pktCount pktInterval s hread hend]
  have h := sends_replicate pktSize pktCount (rearm sockets pktSize pktCount pktInterval)
  rw [sends_rearm, Nat.add_zero] at h
  unfold sends at h ⊢
  rw [List.cons_append, List.countP_cons_of_neg _ _ (by simp)]
  exact h

theorem allScheduled_sends (pktSize k : Nat) :
    List.filterMap
      (fun e =>
        match e with
        | Effect.schedule delay ev => some (delay, ev)
        | _ => none)
      (Effect.actionRead :: List.replicate k (Effect.send 0 pktSize)) = [] := by
  induction k with
  | zero => rfl
  | succ k ih =>
    rw [List.replicate_succ]
    rw [List.filterMap_cons] at ih ⊢
    simp only [List.filterMap_cons] at ih ⊢
    exact ih

/-- C4. Single-node variant.  In every run from process start, the step that reads the
terminate sentinel 1234 performs exactly: the read of the action, `Close` on
`sockets[0]`, `SetFinish`, `Simulator::Stop`; it sends no packet and schedules nothing
(neither a further `GenerateTraffic` nor a further environment report).  And for the
action sequence continue, continue, terminate read at steps 0, 1, 2 (whatever happens in
between, whatever inputs would follow) exactly three steps are executed: steps 0 and 1
each issue their `pktCount` sends and re-arm (two events scheduled), step 2 issues no
send and schedules nothing, and there is no step 3. -/
theorem terminate_step_ends_run (sockets pktSize pktCount : Nat) (pktInterval : Time)
    (env : NS3Environment) (act : NS3AgentActions) :
    (∀ (inputs : List StepInput) (r : StepRecord),
      r ∈ runSteps sockets pktSize pktCount pktInterval inputs (initial env act) →
      r.pre.act.new_ssThresh = 1234 →
        r.effects =
          [Effect.actionRead, Effect.close 0, Effect.setFinish, Effect.stop] ∧
        sends r.effects = 0 ∧ allScheduled r.effects = []) ∧
    (∀ (b0 b1 b2 : List Activity) (c0 c1 t : NS3AgentActions) (rest : List StepInput),
      c0.new_ssThresh = 1 → c1.new_ssThresh = 1 → t.new_ssThresh = 1234 →
        (runSteps sockets pktSize pktCount pktInterval
          (⟨b0, c0⟩ :: ⟨b1, c1⟩ :: ⟨b2, t⟩ :: rest) (initial env act)).map
            (fun r => (sends r.effects, (allScheduled r.effects).length)) =
          [(pktCount, 2), (pktCount, 2), (0, 0)]) := by
  constructor
  · intro inputs r hr hterm
    obtain ⟨-, hpost⟩ :=
      runSteps_invariant sockets pktSize pktCount pktInterval inputs _ rfl r hr
    have heff : r.effects = stepEffects sockets pktSize pktCount pktInterval r.pre := by
      unfold StepRecord.effects stepEffects
      rw [hpost]
    rw [heff, effects_terminate sockets pktSize pktCount pktInterval r.pre hterm]
    exact ⟨rfl, rfl, rfl⟩
  · intro b0 b1 b2 c0 c1 t rest h0 h1 ht
    obtain ⟨pre0, post0, ha0, he0, -, hp0, hq0, hrun0⟩ :=
      runSteps_cons sockets pktSize pktCount pktInterval ⟨b0, c0⟩
        (⟨b1, c1⟩ :: ⟨b2, t⟩ :: rest) (initial env act) rfl
    have hc0 : (⟨b0, c0⟩ : StepInput).read.new_ssThresh ≠ 1234 := by
      show c0.new_ssThresh ≠ 1234
      omega
    obtain ⟨pre1, post1, ha1, he1, -, hp1, hq1, hrun1⟩ :=
      runSteps_cons sockets pktSize pktCount pktInterval ⟨b1, c1⟩
        (⟨b2, t⟩ :: rest) post0 (hq0 hc0)
    have hc1 : (⟨b1, c1⟩ : StepInput).read.new_ssThresh ≠ 1234 := by
      show c1.new_ssThresh ≠ 1234
      omega
    obtain ⟨pre2, post2, ha2, he2, -, hp2, -, hrun2⟩ :=
      runSteps_cons sockets pktSize pktCount pktInterval ⟨b2, t⟩ rest post1 (hq1 hc1)
    have hc2 : (⟨b2, t⟩ : StepInput).read.new_ssThresh = 1234 := ht
    rw [hrun0, if_neg hc0, hrun1, if_neg hc1, hrun2, if_pos hc2]
    have hr0 : pre0.act.new_ssThresh = 1 := by rw [ha0]; exact h0
    have hr1 : pre1.act.new_ssThresh = 1 := by rw [ha1]; exact h1
    have hr2 : pre2.act.new_ssThresh = 1234 := by rw [ha2]; exact ht
    have e0 : (⟨pre0, post0⟩ : StepRecord).effects =
        stepEffects sockets pktSize pktCount pktInterval pre0 := by
      unfold StepRecord.effects stepEffects
      rw [hp0]
    have e1 : (⟨pre1, post1⟩ : StepRecord).effects =
        stepEffects sockets pktSize pktCount pktInterval pre1 := by
      unfold StepRecord.effects stepEffects
      rw [hp1]
    have e2 : (⟨pre2, post2⟩ : StepRecord).effects =
        stepEffects sockets pktSize pktCount pktInterval pre2 := by
      unfold StepRecord.effects stepEffects
      rw [hp2]
    have a0 : (allScheduled
        (stepEffects sockets pktSize pktCount pktInterval pre0)).length = 2 := by
      rw [effects_continue sockets pktSize pktCount pktInterval pre0 hr0 he0]
      unfold allScheduled
      rw [List.filterMap_append, allScheduled_sends]
      rfl
    have a1 : (allScheduled
        (stepEffects sockets pktSize pktCount pktInterval pre1)).length = 2 := by
      rw [effects_continue sockets pktSize pktCount pktInterval pre1 hr1 he1]
      unfold allScheduled
      rw [List.filterMap_append, allScheduled_sends]
      rfl
    have a2 : (allScheduled
        (stepEffects sockets pktSize pktCount pktInterval pre2)).length = 0 := by
      rw [effects_terminate sockets pktSize pktCount pktInterval pre2 hr2]
      rfl
    have s2 : sends (stepEffects sockets pktSize pktCount pktInterval pre2) = 0 := by
      rw [effects_terminate sockets pktSize pktCount pktInterval pre2 hr2]
      rfl
    simp only [List.map_cons, List.map_nil, e0, e1, e2,
      sends_continue sockets pktSize pktCount pktInterval pre0 hr0 he0,
      sends_continue sockets pktSize pktCount pktInterval pre1 hr1 he1, s2, a0, a1, a2]

/-- C4, at a concrete input: the reads 1, 1, 1234 followed by a fourth input that is
never consumed, with two packets per step. -/
theorem terminate_step_ends_run_witness :
    ((⟨1, 0⟩ : NS3AgentActions).new_ssThresh = 1 ∧
      (⟨1234, 0⟩ : NS3AgentActions).new_ssThresh = 1234) ∧
    (runSteps 4 1000 2 1 [reading 1, reading 1, reading 1234, reading 1]
      (initial zeroEnvironment ⟨0, 0⟩)).map
        (fun r => (sends r.effects, (allScheduled r.effects).length)) =
      [(2, 2), (2, 2), (0, 0)] :=
  ⟨⟨rfl, rfl⟩,
    (terminate_step_ends_run 4 1000 2 1 zeroEnvironment ⟨0, 0⟩).2 [] [] [] ⟨1, 0⟩ ⟨1, 0⟩
      ⟨1234, 0⟩ [reading 1] rfl rfl rfl⟩

/-- C5, refuted as stated.  With three packets per step, a first invocation that finds
the continue sentinel in the slot sends three packets, not one; one that finds the
terminate sentinel sends none and does not re-arm. -/
theorem first_invocation_counterexample :
    sends (stepEffects 4 1000 3 1 (startState 1)) = 3 ∧
    sends (stepEffects 4 1000 3 1 (startState 1234)) = 0 ∧
    (allScheduled (stepEffects 4 1000 3 1 (startState 1234))).length = 0 := by
  decide

/-- C5 (amended).  Single-node variant, first invocation of `GenerateTraffic` (statics
at their initial values), any environment slot, any `new_cWnd`, any `pktCount`.  If
`new_ssThresh` is neither 1 nor 1234 the invocation performs exactly: the read of the
action, one send on `sockets[0]`, the two re-arming schedules; so it sends exactly one
packet, whatever `pktCount` is, and re-arms the next step.  If `new_ssThresh = 1` it
performs exactly: the read, `pktCount` sends on `sockets[0]`, the two re-arming
schedules.  If `new_ssThresh = 1234` it performs exactly: the read, the close of
`sockets[0]`, the finish signal, the stop of the event loop; so it sends nothing,
schedules nothing, and leaves `endSimulation` set. -/
theorem first_invocation_bootstrap (sockets pktSize pktCount : Nat) (pktInterval : Time)
    (env : NS3Environment) (act : NS3AgentActions) :
    (act.new_ssThresh ≠ 1 → act.new_ssThresh ≠ 1234 →
      stepEffects sockets pktSize pktCount pktInterval (initial env act) =
        [Effect.actionRead, Effect.send 0 pktSize] ++
          rearm sockets pktSize pktCount pktInterval ∧
      sends (stepEffects sockets pktSize pktCount pktInterval (initial env act)) = 1 ∧
      sendsOn 0 (stepEffects sockets pktSize pktCount pktInterval (initial env act)) = 1 ∧
      scheduled Callback.GenerateTraffic
          (stepEffects sockets pktSize pktCount pktInterval (initial env act)) =
        [(pktInterval, stepEvent sockets pktSize pktCount pktInterval)]) ∧
    (act.new_ssThresh = 1 →
      stepEffects sockets pktSize pktCount pktInterval (initial env act) =
        Effect.actionRead :: List.replicate pktCount (Effect.send 0 pktSize) ++
          rearm sockets pktSize pktCount pktInterval ∧
      sends (stepEffects sockets pktSize pktCount pktInterval (initial env act)) =
        pktCount ∧
      scheduled Callback.GenerateTraffic
          (stepEffects sockets pktSize pktCount pktInterval (initial env act)) =
        [(pktInterval, stepEvent sockets pktSize pktCount pktInterval)]) ∧
    (act.new_ssThresh = 1234 →
      stepEffects sockets pktSize pktCount pktInterval (initial env act) =
        [Effect.actionRead, Effect.close 0, Effect.setFinish, Effect.stop] ∧
      sends (stepEffects sockets pktSize pktCount pktInterval (initial env act)) = 0 ∧
      allScheduled (stepEffects sockets pktSize pktCount pktInterval (initial env act)) =
        [] ∧
      (GenerateTraffic sockets pktSize pktCount pktInterval
        (initial env act)).endSimulation = true) := by
  refine ⟨fun h1 h2 => ?_, fun h1 => ?_, fun h2 => ?_⟩
  · rw [effects_first sockets pktSize pktCount pktInterval (initial env act) h1 h2 rfl rfl]
    simp [rearm, scheduled, sends, sendsOn, reportEvent, stepEvent]
  · refine ⟨effects_continue sockets pktSize pktCount pktInterval (initial env act) h1 rfl,
      sends_continue sockets pktSize pktCount pktInterval (initial env act) h1 rfl, ?_⟩
    rw [effects_continue sockets pktSize pktCount pktInterval (initial env act) h1 rfl]
    unfold scheduled
    rw [List.cons_append, List.filterMap_cons, List.filterMap_append]
    have h := scheduled_replicate_send Callback.GenerateTraffic pktSize pktCount
    unfold scheduled at h
    rw [h]
    simp [rearm, reportEvent, stepEvent]
  · rw [effects_terminate sockets pktSize pktCount pktInterval (initial env act) h2,
      GenerateTraffic_terminate sockets pktSize pktCount pktInterval (initial env act) h2]
    exact ⟨rfl, rfl, rfl, rfl⟩

/-- C5 (amended), at a concrete input: a zeroed action slot and three packets per
step; and a slot holding the terminate sentinel. -/
theorem first_invocation_bootstrap_witness :
    ((startState 0).act.new_ssThresh ≠ 1 ∧ (startState 0).act.new_ssThresh ≠ 1234 ∧
      (startState 1234).act.new_ssThresh = 1234) ∧
    sends (stepEffects 4 1000 3 1 (startState 0)) = 1 ∧
    scheduled Callback.GenerateTraffic (stepEffects 4 1000 3 1 (startState 0)) =
      [(1, stepEvent 4 1000 3 1)] ∧
    stepEffects 4 1000 3 1 (startState 1234) =
      [Effect.actionRead, Effect.close 0, Effect.setFinish, Effect.stop] := by
  have h := (first_invocation_bootstrap 4 1000 3 1 zeroEnvironment ⟨0, 0⟩).1
    (by decide) (by decide)
  have ht := (first_invocation_bootstrap 4 1000 3 1 zeroEnvironment ⟨1234, 0⟩).2.2 rfl
  exact ⟨⟨by decide, by decide, rfl⟩, h.2.1, h.2.2.2, ht.1⟩

theorem scheduled_step_of_not_terminate (sockets pktSize pktCount : Nat)
    (pktInterval : Time) (s : State) (hend : s.endSimulation = false)
    (hterm : s.act.new_ssThresh ≠ 1234) :
    scheduled Callback.GenerateTraffic
        (stepEffects sockets pktSize pktCount pktInterval s) =
      [(pktInterval, stepEvent sockets pktSize pktCount pktInterval)] := by
  by_cases h1 : s.act.new_ssThresh = 1
  · rw [effects_continue sockets pktSize pktCount pktInterval s h1 hend]
    unfold scheduled
    rw [List.cons_append, List.filterMap_cons, List.filterMap_append]
    have h := scheduled_replicate_send Callback.GenerateTraffic pktSize pktCount
    unfold scheduled at h
    rw [h]
    simp [rearm, reportEvent, stepEvent]
  · cases hft : s.firstTime
    · rw [effects_invalid sockets pktSize pktCount pktInterval s h1 hterm hft hend]
      simp [rearm, scheduled, reportEvent, stepEvent]
    · rw [effects_first sockets pktSize pktCount pktInterval s h1 hterm hft hend]
      simp [rearm, scheduled, reportEvent, stepEvent]

/-! ### The event loop -/

theorem popEarliest_eq_none (q : List (Time × Event)) (h : popEarliest q = none) :
    q = [] := by
  cases q with
  | nil => rfl
  | cons p q =>
    rw [popEarliest] at h
    split at h
    · exact Option.noConfusion h
    · split at h <;> exact Option.noConfusion h

theorem popEarliest_spec (q : List (Time × Event)) (p : Time × Event)
    (rest : List (Time × Event)) (h : popEarliest q = some (p, rest)) :
    q.Perm (p :: rest) ∧ ∀ x ∈ q, p.1 ≤ x.1 := by
  induction q generalizing p rest with
  | nil => exact Option.noConfusion h
  | cons a q ih =>
    rw [popEarliest] at h
    split at h
    · next hq =>
      have hnil := popEarliest_eq_none q hq
      subst hnil
      simp only [Option.some.injEq, Prod.mk.injEq] at h
      obtain ⟨rfl, rfl⟩ := h
      exact ⟨List.Perm.refl _, fun x hx => by
        rw [List.mem_singleton] at hx
        rw [hx]⟩
    · next m rest' hq =>
      obtain ⟨hperm, hmin⟩ := ih m rest' hq
      split at h
      · next hle =>
        simp only [Option.some.injEq, Prod.mk.injEq] at h
        obtain ⟨rfl, rfl⟩ := h
        refine ⟨List.Perm.refl _, fun x hx => ?_⟩
        rcases List.mem_cons.1 hx with rfl | hx
        · exact le_refl _
        · exact le_trans hle (hmin x hx)
      · next hle =>
        simp only [Option.some.injEq, Prod.mk.injEq] at h
        obtain ⟨rfl, rfl⟩ := h
        refine ⟨(List.Perm.cons a hperm).trans (List.Perm.swap _ _ _), fun x hx => ?_⟩
        rcases List.mem_cons.1 hx with rfl | hx
        · exact le_of_lt (not_le.1 hle)
        · exact hmin x hx

theorem dues_perm (select : Event → Bool) (q q' : List (Time × Event))
    (h : q.Perm q') : (dues select q).Perm (dues select q') :=
  (h.filter _).map _

theorem dues_cons (select : Event → Bool) (p : Time × Event)
    (q : List (Time × Event)) :
    dues select (p :: q) = (if select p.2 = true then [p.1] else []) ++ dues select q := by
  unfold dues
  by_cases hp : select p.2 = true
  · simp [List.filter_cons, hp]
  · simp [List.filter_cons, hp]

theorem dues_append (select : Event → Bool) (q q' : List (Time × Event)) :
    dues select (q ++ q') = dues select q ++ dues select q' := by
  unfold dues
  rw [List.filter_append, List.map_append]

theorem mem_of_mem_dues (select : Event → Bool) (q : List (Time × Event)) (t : Time)
    (h : t ∈ dues select q) : ∃ x ∈ q, select x.2 = true ∧ x.1 = t := by
  unfold dues at h
  obtain ⟨x, hx, rfl⟩ := List.mem_map.1 h
  obtain ⟨hxq, hsel⟩ := List.mem_filter.1 hx
  exact ⟨x, hxq, hsel, rfl⟩

theorem alternation_succ (n : Nat) :
    alternation (n + 1) = alternation n ++ [n % 2 == 0] := by
  unfold alternation
  rw [List.range_succ, List.map_append]
  rfl

theorem handshakes_append (a b : List Effect) :
    handshakes (a ++ b) = handshakes a ++ handshakes b := by
  unfold handshakes
  rw [List.filterMap_append]

theorem handshakes_replicate_send (index pktSize k : Nat) :
    handshakes (List.replicate k (Effect.send index pktSize)) = [] := by
  induction k with
  | zero => rfl
  | succ k ih =>
    rw [List.replicate_succ]
    unfold handshakes at ih ⊢
    rw [List.filterMap_cons]
    exact ih

theorem allScheduled_replicate_send (index pktSize k : Nat) :
    allScheduled (List.replicate k (Effect.send index pktSize)) = [] := by
  induction k with
  | zero => rfl
  | succ k ih =>
    rw [List.replicate_succ]
    unfold allScheduled at ih ⊢
    rw [List.filterMap_cons]
    exact ih

theorem allScheduled_append (a b : List Effect) :
    allScheduled (a ++ b) = allScheduled a ++ allScheduled b := by
  unfold allScheduled
  rw [List.filterMap_append]

theorem stop_not_mem_replicate_send (index pktSize k : Nat) :
    Effect.stop ∉ List.replicate k (Effect.send index pktSize) := by
  intro h
  have := (List.mem_replicate.1 h).2
  exact Effect.noConfusion this

theorem GenerateTraffic_summary (sockets pktSize pktCount : Nat) (pktInterval : Time)
    (s : State) (hend : s.endSimulation = false) :
    ∃ l, (GenerateTraffic sockets pktSize pktCount pktInterval s).trace = s.trace ++ l ∧
      handshakes l = [true] ∧
      (s.act.new_ssThresh = 1234 → Effect.stop ∈ l) ∧
      (s.act.new_ssThresh ≠ 1234 →
        Effect.stop ∉ l ∧
        allScheduled l =
          [(pktInterval - 1 / 1000, reportEvent sockets pktSize pktCount pktInterval),
            (pktInterval, stepEvent sockets pktSize pktCount pktInterval)] ∧
        (GenerateTraffic sockets pktSize pktCount pktInterval s).endSimulation =
          false) := by
  by_cases hterm : s.act.new_ssThresh = 1234
  · refine ⟨[Effect.actionRead, Effect.close 0, Effect.setFinish, Effect.stop], ?_, rfl,
      fun _ => by simp, fun h => absurd hterm h⟩
    rw [GenerateTraffic_terminate sockets pktSize pktCount pktInterval s hterm]
  · have hrearm : allScheduled (rearm sockets pktSize pktCount pktInterval) =
        [(pktInterval - 1 / 1000, reportEvent sockets pktSize pktCount pktInterval),
          (pktInterval, stepEvent sockets pktSize pktCount pktInterval)] := rfl
    have hstop : Effect.stop ∉ rearm sockets pktSize pktCount pktInterval := by
      simp [rearm]
    have hhs : handshakes (rearm sockets pktSize pktCount pktInterval) = [] := rfl
    have hpost := endSimulation_of_not_terminate sockets pktSize pktCount pktInterval s
      hterm hend
    by_cases h1 : s.act.new_ssThresh = 1
    · refine ⟨Effect.actionRead :: List.replicate pktCount (Effect.send 0 pktSize) ++
          rearm sockets pktSize pktCount pktInterval, ?_, ?_, fun h => absurd h hterm,
          fun _ => ⟨?_, ?_, hpost⟩⟩
      · rw [GenerateTraffic_continue sockets pktSize pktCount pktInterval s h1 hend]
      · rw [List.cons_append, ← List.singleton_append, handshakes_append,
          handshakes_append, handshakes_replicate_send, hhs]
        rfl
      · intro hmem
        rw [List.cons_append, List.mem_cons, List.mem_append] at hmem
        rcases hmem with h | h | h
        · exact Effect.noConfusion h
        · exact stop_not_mem_replicate_send _ _ _ h
        · exact hstop h
      · rw [List.cons_append, ← List.singleton_append, allScheduled_append,
          allScheduled_append, allScheduled_replicate_send, hrearm]
        rfl
    · cases hft : s.firstTime
      · refine ⟨[Effect.actionRead, Effect.incorrectState] ++
            rearm sockets pktSize pktCount pktInterval, ?_, rfl, fun h => absurd h hterm,
            fun _ => ⟨by simp [rearm], rfl, hpost⟩⟩
        rw [GenerateTraffic_invalid sockets pktSize pktCount pktInterval s h1 hterm hft
          hend]
      · refine ⟨[Effect.actionRead, Effect.send 0 pktSize] ++
            rearm sockets pktSize pktCount pktInterval, ?_, rfl, fun h => absurd h hterm,
            fun _ => ⟨by simp [rearm], rfl, hpost⟩⟩
        rw [GenerateTraffic_first sockets pktSize pktCount pktInterval s h1 hterm hft
          hend]

theorem sendLoop2_trace (sockets pktSize : Nat) (nodeNum : Int) (k : Nat)
    (s s1 : State) (h : sendLoop2 sockets pktSize nodeNum k s = some s1) :
    s1.trace = s.trace ++ List.replicate k (Effect.send nodeNum.toNat pktSize) ∧
      s1.endSimulation = s.endSimulation := by
  induction k generalizing s with
  | zero =>
    simp only [sendLoop2, Option.some.injEq] at h
    rw [← h]
    simp
  | succ k ih =>
    rw [sendLoop2] at h
    split at h
    · obtain ⟨ht, he⟩ := ih _ h
      refine ⟨?_, he⟩
      rw [ht, List.replicate_succ]
      simp
    · exact Option.noConfusion h

theorem GenerateTraffic2_summary (g : Globals) (sockets pktSize pktCount : Nat)
    (pktInterval : Time) (s post : State)
    (h : GenerateTraffic2 g sockets pktSize pktCount pktInterval s = some post) :
    ∃ l ev, post.trace = s.trace ++ l ∧ handshakes l = [] ∧ Effect.stop ∉ l ∧
      allScheduled l = [(pktInterval, ev)] ∧ isStep ev = false ∧ isReport ev = false ∧
      post.endSimulation = s.endSimulation := by
  unfold GenerateTraffic2 at h
  cases hloop : sendLoop2 sockets pktSize s.nodeNum2 pktCount s with
  | none =>
    rw [hloop] at h
    exact Option.noConfusion h
  | some s1 =>
    rw [hloop, Option.map_some'] at h
    obtain ⟨ht, he⟩ := sendLoop2_trace _ _ _ _ _ _ hloop
    have h' := Option.some.inj h
    refine ⟨List.replicate pktCount (Effect.send s.nodeNum2.toNat pktSize) ++
      [Effect.schedule pktInterval
        ⟨none, Callback.GenerateTraffic2, sockets, pktSize, pktCount, pktInterval⟩],
      ⟨none, Callback.GenerateTraffic2, sockets, pktSize, pktCount, pktInterval⟩,
      ?_, ?_, ?_, ?_, rfl, rfl, ?_⟩
    · rw [← h', ← List.append_assoc, ← ht]
      rfl
    · rw [handshakes_append, handshakes_replicate_send]
      rfl
    · intro hmem
      rw [List.mem_append] at hmem
      rcases hmem with hm | hm
      · exact stop_not_mem_replicate_send _ _ _ hm
      · rw [List.mem_singleton] at hm
        exact Effect.noConfusion hm
    · rw [allScheduled_append, allScheduled_replicate_send]
      rfl
    · rw [← h', ← he]
      rfl

theorem next_eq_some (g : Globals) (agent : Nat → NS3AgentActions)
    (arrivals : Nat → Nat) (sim sim' : Simulator)
    (h : sim.next g agent arrivals = some sim') :
    ∃ p rest pre post, sim.stopped = false ∧ popEarliest sim.queue = some (p, rest) ∧
      pre = { ReceivePacket (arrivals sim.fired) sim.program with now := p.1 } ∧
      fireEvent g (agent (publications sim.program.trace)) p.2 pre = some post ∧
      sim' =
        { program := post
          queue := rest ++
            (allScheduled (effectsSince pre post)).map fun e => (p.1 + e.1, e.2)
          stopped := decide (Effect.stop ∈ effectsSince pre post)
          fired := sim.fired + 1 } := by
  unfold Simulator.next at h
  split at h
  · exact Option.noConfusion h
  · next hstop =>
    split at h
    · exact Option.noConfusion h
    · next p rest hpop =>
      dsimp only at h
      split at h
      · exact Option.noConfusion h
      · next post hfire =>
        refine ⟨p, rest, _, post, ?_, hpop, rfl, hfire, (Option.some.inj h).symm⟩
        cases hs : sim.stopped
        · rfl
        · exact absurd hs hstop

theorem dues_rest_of_not (select : Event → Bool) (q rest : List (Time × Event))
    (p : Time × Event) (hperm : q.Perm (p :: rest)) (hsel : select p.2 = false)
    (L : List Time) (hq : dues select q = L) (hL : L.length ≤ 1) :
    dues select rest = L := by
  have h := dues_perm select _ _ hperm
  rw [dues_cons, hsel, hq] at h
  simp only [Bool.false_eq_true, if_false, List.nil_append] at h
  match L, hL, h with
  | [], _, h => exact h.symm.eq_nil
  | [a], _, h => exact List.perm_singleton.1 h.symm
  | _ :: _ :: _, hL, _ => simp at hL

theorem dues_rest_of_sel (select : Event → Bool) (q rest : List (Time × Event))
    (p : Time × Event) (hperm : q.Perm (p :: rest)) (hsel : select p.2 = true)
    (gd : Time) (hq : dues select q = [gd]) :
    p.1 = gd ∧ dues select rest = [] := by
  have h := dues_perm select _ _ hperm
  rw [dues_cons, hsel, hq] at h
  simp only [if_true, List.singleton_append] at h
  have hlen := h.length_eq
  rw [List.length_singleton, List.length_cons] at hlen
  have hnil : dues select rest = [] := List.eq_nil_of_length_eq_zero (by omega)
  rw [hnil] at h
  have := List.perm_singleton.1 h
  exact ⟨by injection this with h1 _; exact h1.symm, hnil⟩

theorem not_sel_of_dues_nil (select : Event → Bool) (q rest : List (Time × Event))
    (p : Time × Event) (hperm : q.Perm (p :: rest)) (hq : dues select q = []) :
    select p.2 = false := by
  cases hsel : select p.2
  · rfl
  · have h := dues_perm select _ _ hperm
    rw [dues_cons, hsel, hq] at h
    simp only [if_true, List.singleton_append] at h
    exact absurd h.nil_eq (by simp)

theorem Consistent_next (g : Globals) (agent : Nat → NS3AgentActions)
    (arrivals : Nat → Nat) (sim sim' : Simulator) (hinv : sim.Consistent)
    (hnext : sim.next g agent arrivals = some sim') : sim'.Consistent := by
  obtain ⟨p, rest, pre, post, hns, hpop, hpre, hfire, hsim⟩ :=
    next_eq_some g agent arrivals sim sim' hnext
  obtain ⟨halt, hrun⟩ := hinv
  obtain ⟨hend, heven, hodd⟩ := hrun hns
  obtain ⟨hperm, hmin⟩ := popEarliest_spec _ _ _ hpop
  have hpretrace : pre.trace = sim.program.trace := by rw [hpre]; rfl
  have hpreend : pre.endSimulation = false := by rw [hpre]; exact hend
  have hpar : (handshakes sim.program.trace).length % 2 = 0 ∨
      (handshakes sim.program.trace).length % 2 = 1 := by omega
  subst hsim
  unfold fireEvent at hfire
  split at hfire
  · -- `GenerateTraffic`
    next hcb =>
    have hS : isStep p.2 = true := by unfold isStep; rw [hcb]
    have hpost := Option.some.inj hfire
    rcases hpar with hp | hp
    · obtain ⟨hr0, gd, hg⟩ := heven hp
      obtain ⟨-, hrestS⟩ := dues_rest_of_sel isStep _ _ _ hperm hS gd hg
      have hR := not_sel_of_dues_nil isReport _ _ _ hperm hr0
      have hrestR := dues_rest_of_not isReport _ _ _ hperm hR [] hr0 (by simp)
      obtain ⟨l, htr, hhs, hstopIn, hnot⟩ :=
        GenerateTraffic_summary p.2.sockets p.2.pktSize p.2.pktCount p.2.pktInterval pre
          hpreend
      rw [hpost] at htr hnot
      have heff : effectsSince pre post = l := adhoc_effectsSince_append pre post l htr
      have hlen : (handshakes post.trace).length =
          (handshakes sim.program.trace).length + 1 := by
        rw [htr, hpretrace, handshakes_append, hhs, List.length_append]
        rfl
      refine ⟨?_, ?_⟩
      · show handshakes post.trace = alternation (handshakes post.trace).length
        rw [hlen, alternation_succ, ← halt, htr, hpretrace, handshakes_append, hhs]
        simp [hp]
      · intro hns'
        have hstop : Effect.stop ∉ l := by
          have : decide (Effect.stop ∈ effectsSince pre post) = false := hns'
          rw [heff] at this
          simpa using this
        have hterm : pre.act.new_ssThresh ≠ 1234 := fun h => hstop (hstopIn h)
        obtain ⟨-, hsch, hendpost⟩ := hnot hterm
        refine ⟨hendpost, ?_, ?_⟩
        · intro h0
          have h0' : (handshakes post.trace).length % 2 = 0 := h0
          omega
        · intro _
          refine ⟨p.1 + (p.2.pktInterval - 1 / 1000), p.1 + p.2.pktInterval, ?_, ?_, ?_⟩
          · show dues isReport (rest ++ _) = _
            rw [dues_append, hrestR, heff, hsch]
            rfl
          · show dues isStep (rest ++ _) = _
            rw [dues_append, hrestS, heff, hsch]
            rfl
          · linarith
    · obtain ⟨r, gd, hr, hg, hlt⟩ := hodd hp
      obtain ⟨hpgd, -⟩ := dues_rest_of_sel isStep _ _ _ hperm hS gd hg
      have hmem : r ∈ dues isReport sim.queue := by rw [hr]; exact List.mem_singleton.2 rfl
      obtain ⟨x, hx, -, hxr⟩ := mem_of_mem_dues _ _ _ hmem
      have := hmin x hx
      rw [hxr, hpgd] at this
      exact absurd hlt (not_lt.2 this)
  · -- `SendReceivedPacketData`
    next socket hcb =>
    have hR : isReport p.2 = true := by unfold isReport; rw [hcb]
    have hS : isStep p.2 = false := by unfold isStep; rw [hcb]
    have hpost := Option.some.inj hfire
    have htr : post.trace = pre.trace ++
        [Effect.envPublish (fillEnvironment pre.env pre.now pre.packetsReceived)] := by
      rw [← hpost]
      rfl
    have hpostend : post.endSimulation = false := by
      rw [← hpost]
      exact hpreend
    have heff := adhoc_effectsSince_append pre post _ htr
    rcases hpar with hp | hp
    · obtain ⟨hr0, -⟩ := heven hp
      have := not_sel_of_dues_nil isReport _ _ _ hperm hr0
      rw [hR] at this
      exact Bool.noConfusion this
    · obtain ⟨r, gd, hr, hg, -⟩ := hodd hp
      obtain ⟨-, hrestR⟩ := dues_rest_of_sel isReport _ _ _ hperm hR r hr
      have hrestS := dues_rest_of_not isStep _ _ _ hperm hS [gd] hg (by simp)
      have hlen : (handshakes post.trace).length =
          (handshakes sim.program.trace).length + 1 := by
        rw [htr, hpretrace, handshakes_append, List.length_append]
        rfl
      refine ⟨?_, ?_⟩
      · show handshakes post.trace = alternation (handshakes post.trace).length
        rw [hlen, alternation_succ, ← halt, htr, hpretrace, handshakes_append]
        have hb : ((handshakes sim.program.trace).length % 2 == 0) = false := by
          simp [hp]
        rw [hb]
        rfl
      · intro _
        refine ⟨hpostend, ?_, ?_⟩
        · intro _
          refine ⟨?_, gd, ?_⟩
          · show dues isReport (rest ++ _) = _
            rw [dues_append, hrestR, heff]
            rfl
          · show dues isStep (rest ++ _) = _
            rw [dues_append, hrestS, heff]
            rfl
        · intro h1
          have h1' : (handshakes post.trace).length % 2 = 1 := h1
          omega
  · -- `GenerateTraffic2`
    next hcb =>
    have hR : isReport p.2 = false := by unfold isReport; rw [hcb]
    have hS : isStep p.2 = false := by unfold isStep; rw [hcb]
    obtain ⟨l, ev, htr, hhs, hstop, hsch, hevS, hevR, hpostend⟩ :=
      GenerateTraffic2_summary g _ _ _ _ pre post hfire
    have heff := adhoc_effectsSince_append pre post l htr
    have hhand : handshakes post.trace = handshakes sim.program.trace := by
      rw [htr, hpretrace, handshakes_append, hhs, List.append_nil]
    have hnew : ∀ select : Event → Bool, select ev = false →
        dues select ((allScheduled l).map fun e => (p.1 + e.1, e.2)) = [] := by
      intro select hsel
      rw [hsch]
      simp [dues, hsel]
    refine ⟨?_, ?_⟩
    · show handshakes post.trace = alternation (handshakes post.trace).length
      rw [hhand]
      exact halt
    · intro _
      refine ⟨hpostend.trans hpreend, ?_, ?_⟩
      · intro h0
        have h0' : (handshakes post.trace).length % 2 = 0 := h0
        rw [hhand] at h0'
        obtain ⟨hr0, gd, hg⟩ := heven h0'
        refine ⟨?_, gd, ?_⟩
        · show dues isReport (rest ++ _) = _
          rw [dues_append, heff, hnew isReport hevR,
            dues_rest_of_not isReport _ _ _ hperm hR [] hr0 (by simp)]
          rfl
        · show dues isStep (rest ++ _) = _
          rw [dues_append, heff, hnew isStep hevS,
            dues_rest_of_not isStep _ _ _ hperm hS [gd] hg (by simp)]
          rfl
      · intro h1
        have h1' : (handshakes post.trace).length % 2 = 1 := h1
        rw [hhand] at h1'
        obtain ⟨r, gd, hr, hg, hlt⟩ := hodd h1'
        refine ⟨r, gd, ?_, ?_, hlt⟩
        · show dues isReport (rest ++ _) = _
          rw [dues_append, heff, hnew isReport hevR,
            dues_rest_of_not isReport _ _ _ hperm hR [r] hr (by simp)]
          rfl
        · show dues isStep (rest ++ _) = _
          rw [dues_append, heff, hnew isStep hevS,
            dues_rest_of_not isStep _ _ _ hperm hS [gd] hg (by simp)]
          rfl

theorem dues_map_other (select : Event → Bool) (f : Nat → Time) (ev : Nat → Event)
    (hsel : ∀ i, select (ev i) = false) (l : List Nat) :
    dues select (l.map fun i => (f i, ev i)) = [] := by
  induction l with
  | nil => rfl
  | cons a l ih =>
    rw [List.map_cons, dues_cons, ih, hsel a]
    rfl

theorem Consistent_main (g : Globals) (env : NS3Environment) (act : NS3AgentActions)
    (packetSize numPackets : Nat) (interval : Time) (draw : Nat → ℚ) :
    (main g env act packetSize numPackets interval draw).Consistent := by
  have hother : ∀ select : Event → Bool,
      (∀ index, select ⟨some index, Callback.GenerateTraffic2, g.numNodes, packetSize,
        numPackets, interval⟩ = false) →
      dues select ((List.range g.numNodes).map fun index =>
        (1 + uniform_real_distribution 0 1 (draw index),
          (⟨some index, Callback.GenerateTraffic2, g.numNodes, packetSize, numPackets,
            interval⟩ : Event))) = [] := fun select hsel =>
    dues_map_other select _ _ hsel _
  refine ⟨rfl, fun _ => ⟨rfl, fun _ => ⟨?_, 1, ?_⟩, fun h => ?_⟩⟩
  · show dues isReport (_ :: _) = []
    rw [dues_cons, hother isReport (fun _ => rfl)]
    rfl
  · show dues isStep (_ :: _) = [1]
    rw [dues_cons, hother isStep (fun _ => rfl)]
    rfl
  · have h' : (0 : Nat) % 2 = 1 := h
    omega

theorem Consistent_runFor (g : Globals) (agent : Nat → NS3AgentActions)
    (arrivals : Nat → Nat) (n : Nat) (sim : Simulator) (hinv : sim.Consistent) :
    (Simulator.runFor g agent arrivals n sim).Consistent := by
  induction n generalizing sim with
  | zero => exact hinv
  | succ n ih =>
    rw [Simulator.runFor]
    cases hnext : sim.next g agent arrivals with
    | none => exact hinv
    | some sim' => exact ih sim' (Consistent_next g agent arrivals sim sim' hinv hnext)

theorem popEarliest_head (p : Time × Event) (q : List (Time × Event))
    (h : ∀ x ∈ q, p.1 ≤ x.1) : popEarliest (p :: q) = some (p, q) := by
  rw [popEarliest]
  cases hq : popEarliest q with
  | none =>
    rw [popEarliest_eq_none q hq]
  | some mr =>
    obtain ⟨m, rest⟩ := mr
    obtain ⟨hperm, -⟩ := popEarliest_spec q m rest hq
    have hm : m ∈ q := hperm.mem_iff.2 (List.mem_cons_self _ _)
    simp only [if_pos (h m hm)]

theorem next_main (g g' : Globals) (agent : Nat → NS3AgentActions)
    (arrivals : Nat → Nat) (env : NS3Environment) (act : NS3AgentActions)
    (packetSize numPackets : Nat) (interval : Time) (draw : Nat → ℚ)
    (hdraw : ∀ i, 0 ≤ draw i) :
    ∃ sim', (main g env act packetSize numPackets interval draw).next g' agent arrivals =
        some sim' ∧
      sim'.program = GenerateTraffic g.numNodes packetSize numPackets interval
        { ReceivePacket (arrivals 0) (initial env act) with now := 1 } := by
  have hpop : popEarliest (main g env act packetSize numPackets interval draw).queue =
      some ((1, ⟨some 0, Callback.GenerateTraffic, g.numNodes, packetSize, numPackets,
        interval⟩),
        (List.range g.numNodes).map fun index =>
          (1 + uniform_real_distribution 0 1 (draw index),
            ⟨some index, Callback.GenerateTraffic2, g.numNodes, packetSize, numPackets,
              interval⟩)) := by
    apply popEarliest_head
    intro x hx
    obtain ⟨i, -, rfl⟩ := List.mem_map.1 hx
    have := hdraw i
    show (1 : ℚ) ≤ 1 + uniform_real_distribution 0 1 (draw i)
    unfold uniform_real_distribution
    linarith
  unfold Simulator.next
  rw [hpop]
  exact ⟨_, rfl, rfl⟩

/-! ### The continue sentinel -/

theorem GenerateTraffic_act (sockets pktSize pktCount : Nat) (pktInterval : Time)
    (s : State) :
    (GenerateTraffic sockets pktSize pktCount pktInterval s).act =
      if s.act.new_ssThresh = 1 then { s.act with new_ssThresh := 0 } else s.act := by
  unfold GenerateTraffic
  simp only [adhoc_sendLoop_eq, Schedule]
  split <;> split <;> (try split) <;> (try split) <;> rfl

theorem GenerateTraffic_continue_effects (sockets pktSize pktCount : Nat)
    (pktInterval : Time) (s : State) (hread : s.act.new_ssThresh = 1) :
    ∃ tail, stepEffects sockets pktSize pktCount pktInterval s =
        Effect.actionRead :: List.replicate pktCount (Effect.send 0 pktSize) ++ tail ∧
      (tail = rearm sockets pktSize pktCount pktInterval ∨ tail = [Effect.stop]) := by
  cases hend : s.endSimulation
  · exact ⟨_, effects_continue sockets pktSize pktCount pktInterval s hread hend,
      Or.inl rfl⟩
  · refine ⟨[Effect.stop], ?_, Or.inr rfl⟩
    apply adhoc_effectsSince_append
    unfold GenerateTraffic
    simp only [hread, if_true, adhoc_sendLoop_eq, hend, Bool.true_eq_false, if_false]
    simp

/-- C14. Single-node variant, any invocation of `GenerateTraffic`.  If it reads
`new_ssThresh = 1` it sends exactly `pktCount` packets, all on `sockets[0]`, and leaves
the action slot with `new_ssThresh = 0` and `new_cWnd` as it was; so if nothing is
written to the slot before the next step (receive callbacks do not touch it, and a
report whose agent stores the same record back leaves it as it is), the next step
reads 0, which is neither 1 nor 1234.  If it reads any other value the action record is
left unchanged. -/
theorem continue_sentinel_consumed (sockets pktSize pktCount : Nat) (pktInterval : Time)
    (s : State) :
    (s.act.new_ssThresh = 1 →
      sends (stepEffects sockets pktSize pktCount pktInterval s) = pktCount ∧
      sendsOn 0 (stepEffects sockets pktSize pktCount pktInterval s) = pktCount ∧
      (GenerateTraffic sockets pktSize pktCount pktInterval s).act =
        ⟨0, s.act.new_cWnd⟩ ∧
      (∀ (pending socket : Nat),
        (SendReceivedPacketData
          (GenerateTraffic sockets pktSize pktCount pktInterval s).act socket pktSize
          pktCount pktInterval
          (ReceivePacket pending
            (GenerateTraffic sockets pktSize pktCount pktInterval s))).act.new_ssThresh ≠
          1 ∧
        (SendReceivedPacketData
          (GenerateTraffic sockets pktSize pktCount pktInterval s).act socket pktSize
          pktCount pktInterval
          (ReceivePacket pending
            (GenerateTraffic sockets pktSize pktCount pktInterval s))).act.new_ssThresh ≠
          1234)) ∧
    (s.act.new_ssThresh ≠ 1 →
      (GenerateTraffic sockets pktSize pktCount pktInterval s).act = s.act) := by
  constructor
  · intro hread
    have hact : (GenerateTraffic sockets pktSize pktCount pktInterval s).act =
        ⟨0, s.act.new_cWnd⟩ := by
      rw [GenerateTraffic_act, if_pos hread]
    obtain ⟨tail, heff, htail⟩ :=
      GenerateTraffic_continue_effects sockets pktSize pktCount pktInterval s hread
    have hs : sends tail = 0 := by
      rcases htail with h | h <;> rw [h] <;> rfl
    have hs0 : sendsOn 0 tail = 0 := by
      rcases htail with h | h <;> rw [h] <;> rfl
    refine ⟨?_, ?_, hact, ?_⟩
    · rw [heff]
      unfold sends at hs ⊢
      rw [List.cons_append, List.countP_cons_of_neg _ _ (by simp), List.countP_append,
        List.countP_replicate, hs]
      simp
    · rw [heff]
      unfold sendsOn at hs0 ⊢
      rw [List.cons_append, List.countP_cons_of_neg _ _ (by simp), List.countP_append,
        List.countP_replicate, hs0]
      simp
    · intro pending socket
      have h0 : (GenerateTraffic sockets pktSize pktCount pktInterval
          s).act.new_ssThresh = 0 := by
        rw [hact]
      constructor
      · show (GenerateTraffic sockets pktSize pktCount pktInterval s).act.new_ssThresh ≠ 1
        rw [h0]
        decide
      · show (GenerateTraffic sockets pktSize pktCount pktInterval
          s).act.new_ssThresh ≠ 1234
        rw [h0]
        decide
  · intro hread
    rw [GenerateTraffic_act, if_neg hread]

/-- C14, at a concrete input: the first step of a run finds the continue sentinel in the
slot, with three packets per step and `new_cWnd = 7`. -/
theorem continue_sentinel_consumed_witness :
    (((initial zeroEnvironment ⟨1, 7⟩).act.new_ssThresh = 1) ∧
      (startState 5).act.new_ssThresh ≠ 1) ∧
    sendsOn 0 (stepEffects 4 1000 3 1 (initial zeroEnvironment ⟨1, 7⟩)) = 3 ∧
    (GenerateTraffic 4 1000 3 1 (initial zeroEnvironment ⟨1, 7⟩)).act = ⟨0, 7⟩ ∧
    (GenerateTraffic 4 1000 3 1 (startState 5)).act = (startState 5).act := by
  have h := (continue_sentinel_consumed 4 1000 3 1 (initial zeroEnvironment ⟨1, 7⟩)).1 rfl
  exact ⟨⟨rfl, by decide⟩, h.2.1, h.2.2.1,
    (continue_sentinel_consumed 4 1000 3 1 (startState 5)).2 (by decide)⟩

end WifiSimpleAdhoc

/-! ## Properties shared by the two variants -/

theorem wrapInt32_of_range (x : Int) (hlo : -2147483648 ≤ x) (hhi : x ≤ 2147483647) :
    wrapInt32 x = x := by
  unfold wrapInt32
  omega

theorem drain_eq (pending : Nat) (packetsReceived : Int)
    (hlo : -2147483648 ≤ packetsReceived)
    (hhi : packetsReceived + pending ≤ 2147483647) :
    drain pending packetsReceived = packetsReceived + pending := by
  induction pending generalizing packetsReceived with
  | zero => simp [drain]
  | succ k ih =>
    push_cast at hhi
    rw [drain, wrapInt32_of_range _ (by omega) (by omega), ih _ (by omega) (by omega)]
    push_cast
    ring

theorem GetMicroSeconds_of_microseconds (k : Int) :
    GetMicroSeconds ((k : ℚ) / 1000000) = k := by
  unfold GetMicroSeconds
  rw [div_mul_cancel₀ _ (by norm_num), Int.floor_intCast]

/-- C7. Step re-arming, both variants.  Multi-node: a step whose run flag is set
schedules exactly one `GenerateTraffic`, at delay `pktInterval`, whatever the send
flags, the jitter draws, the packet count and the state are.  Single-node: in every run
from process start, every executed step that reads a value other than 1234 schedules
exactly one `GenerateTraffic`, at delay `pktInterval`, whether it sent `pktCount`
packets (value 1), one packet or none (any other value). -/
theorem step_rearms_once :
    (∀ (g : RLWifiNS3AI.Globals) (draw : Nat → ℚ) (reply : RLWifiNS3AI.NS3AgentActions)
        (sockets pktSize pktCount : Nat) (pktInterval : Time) (s : RLWifiNS3AI.State),
      reply.runSimulation = true →
        RLWifiNS3AI.scheduled RLWifiNS3AI.Callback.GenerateTraffic
            (RLWifiNS3AI.stepEffects g draw reply sockets pktSize pktCount pktInterval s) =
          [(pktInterval, RLWifiNS3AI.stepEvent sockets pktSize pktCount pktInterval)]) ∧
    (∀ (sockets pktSize pktCount : Nat) (pktInterval : Time) (env : NS3Environment)
        (act : WifiSimpleAdhoc.NS3AgentActions) (inputs : List WifiSimpleAdhoc.StepInput)
        (r : WifiSimpleAdhoc.StepRecord),
      r ∈ WifiSimpleAdhoc.runSteps sockets pktSize pktCount pktInterval inputs
          (WifiSimpleAdhoc.initial env act) →
      r.pre.act.new_ssThresh ≠ 1234 →
        WifiSimpleAdhoc.scheduled WifiSimpleAdhoc.Callback.GenerateTraffic r.effects =
          [(pktInterval,
            WifiSimpleAdhoc.stepEvent sockets pktSize pktCount pktInterval)]) := by
  constructor
  · intro g draw reply sockets pktSize pktCount pktInterval s hrun
    exact RLWifiNS3AI.scheduled_steps_run g draw reply sockets pktSize pktCount
      pktInterval s hrun
  · intro sockets pktSize pktCount pktInterval env act inputs r hr hterm
    obtain ⟨hend, hpost⟩ :=
      WifiSimpleAdhoc.runSteps_invariant sockets pktSize pktCount pktInterval inputs _
        rfl r hr
    have heff : r.effects =
        WifiSimpleAdhoc.stepEffects sockets pktSize pktCount pktInterval r.pre := by
      unfold WifiSimpleAdhoc.StepRecord.effects WifiSimpleAdhoc.stepEffects
      rw [hpost]
    rw [heff]
    exact WifiSimpleAdhoc.scheduled_step_of_not_terminate sockets pktSize pktCount
      pktInterval r.pre hend hterm

/-- C7, at concrete inputs: a multi-node step that selects node 1 only, and the second
step of a single-node run, which reads 5 and sends nothing. -/
theorem step_rearms_once_witness :
    (RLWifiNS3AI.sendOnNodeOne.runSimulation = true ∧
      WifiSimpleAdhoc.secondRead.act.new_ssThresh ≠ 1234) ∧
    RLWifiNS3AI.scheduled RLWifiNS3AI.Callback.GenerateTraffic
        (RLWifiNS3AI.stepEffects RLWifiNS3AI.twoNodes RLWifiNS3AI.halfDraw
          RLWifiNS3AI.sendOnNodeOne 2 1000 3 1 RLWifiNS3AI.startState) =
      [(1, RLWifiNS3AI.stepEvent 2 1000 3 1)] ∧
    WifiSimpleAdhoc.scheduled WifiSimpleAdhoc.Callback.GenerateTraffic
        (WifiSimpleAdhoc.effectsSince WifiSimpleAdhoc.secondRead
          (WifiSimpleAdhoc.GenerateTraffic 4 1000 1 1 WifiSimpleAdhoc.secondRead)) =
      [(1, WifiSimpleAdhoc.stepEvent 4 1000 1 1)] := by
  have hmem : (⟨WifiSimpleAdhoc.secondRead,
      WifiSimpleAdhoc.GenerateTraffic 4 1000 1 1 WifiSimpleAdhoc.secondRead⟩ :
        WifiSimpleAdhoc.StepRecord) ∈
      WifiSimpleAdhoc.runSteps 4 1000 1 1
        [WifiSimpleAdhoc.reading 0, WifiSimpleAdhoc.reading 5]
        (WifiSimpleAdhoc.initial zeroEnvironment ⟨0, 0⟩) :=
    List.mem_cons_of_mem _ (List.mem_cons_self _ _)
  exact ⟨⟨rfl, by decide⟩,
    step_rearms_once.1 RLWifiNS3AI.twoNodes RLWifiNS3AI.halfDraw
      RLWifiNS3AI.sendOnNodeOne 2 1000 3 1 RLWifiNS3AI.startState rfl,
    step_rearms_once.2 4 1000 1 1 zeroEnvironment ⟨0, 0⟩
      [WifiSimpleAdhoc.reading 0, WifiSimpleAdhoc.reading 5] _ hmem (by decide)⟩


theorem GenerateTraffic_packetsReceived_multi (g : RLWifiNS3AI.Globals) (draw : Nat → ℚ)
    (reply : RLWifiNS3AI.NS3AgentActions) (sockets pktSize pktCount : Nat)
    (pktInterval : Time) (s : RLWifiNS3AI.State) :
    (RLWifiNS3AI.GenerateTraffic g draw reply sockets pktSize pktCount pktInterval
      s).packetsReceived = s.packetsReceived := by
  cases hrun : reply.runSimulation
  · rw [RLWifiNS3AI.GenerateTraffic_halt g draw reply sockets pktSize pktCount
      pktInterval s hrun]
  · rw [RLWifiNS3AI.GenerateTraffic_run g draw reply sockets pktSize pktCount
      pktInterval s hrun]

theorem ReceivePacket_packetsReceived_multi (k : Nat) (s : RLWifiNS3AI.State) :
    (RLWifiNS3AI.ReceivePacket k s).packetsReceived = drain k s.packetsReceived := rfl

theorem ReceivePacket_packetsReceived_single (k : Nat) (s : WifiSimpleAdhoc.State) :
    (WifiSimpleAdhoc.ReceivePacket k s).packetsReceived = drain k s.packetsReceived := rfl

theorem drain_from_zero_max : drain 2147483647 0 = 2147483647 := by
  have hk := drain_eq 2147483647 0 (by norm_num) (by norm_num)
  rw [hk]
  norm_num

/-- C9, refuted as stated.  From process start, a receive callback that drains
`2^31 - 1` packets leaves the counter at `2^31 - 1`, and a second one that drains one
more packet leaves it at `-2^31`: the counter has decreased, and it is not the total
`2^31` of packets drained.  In both files. -/
theorem packetsReceived_overflow_counterexample :
    ((RLWifiNS3AI.ReceivePacket 2147483647 RLWifiNS3AI.startState).packetsReceived =
        2147483647 ∧
      (([2147483647, 1] : List Nat).foldl (fun st k => RLWifiNS3AI.ReceivePacket k st)
        RLWifiNS3AI.startState).packetsReceived = -2147483648) ∧
    ((WifiSimpleAdhoc.ReceivePacket 2147483647
        (WifiSimpleAdhoc.startState 0)).packetsReceived = 2147483647 ∧
      (([2147483647, 1] : List Nat).foldl (fun st k => WifiSimpleAdhoc.ReceivePacket k st)
        (WifiSimpleAdhoc.startState 0)).packetsReceived = -2147483648) ∧
    (-2147483648 : Int) < 2147483647 ∧
    (-2147483648 : Int) ≠ (([2147483647, 1] : List Nat).sum : Nat) := by
  have hm0 : RLWifiNS3AI.startState.packetsReceived = 0 := rfl
  have hs0 : (WifiSimpleAdhoc.startState 0).packetsReceived = 0 := rfl
  have hm : (RLWifiNS3AI.ReceivePacket 2147483647
      RLWifiNS3AI.startState).packetsReceived = 2147483647 := by
    rw [ReceivePacket_packetsReceived_multi, hm0, drain_from_zero_max]
  have hs : (WifiSimpleAdhoc.ReceivePacket 2147483647
      (WifiSimpleAdhoc.startState 0)).packetsReceived = 2147483647 := by
    rw [ReceivePacket_packetsReceived_single, hs0, drain_from_zero_max]
  refine ⟨⟨hm, ?_⟩, ⟨hs, ?_⟩, by decide, by norm_num⟩
  · rw [List.foldl_cons, List.foldl_cons, List.foldl_nil,
      ReceivePacket_packetsReceived_multi, hm]
    decide
  · rw [List.foldl_cons, List.foldl_cons, List.foldl_nil,
      ReceivePacket_packetsReceived_single, hs]
    decide

theorem fillEnvironment_fields (env : NS3Environment) (now : Time) (c : Int) :
    (fillEnvironment env now c).simTime_us = GetMicroSeconds now ∧
    (fillEnvironment env now c).nodeId = 5 ∧
    (fillEnvironment env now c).socketUid = 2 ∧
    (fillEnvironment env now c).envType = 1 ∧
    (0 ≤ c → c ≤ 2147483647 → ((fillEnvironment env now c).segmentSize : Int) = c) := by
  refine ⟨rfl, rfl, rfl, rfl, ?_⟩
  intro h0 h1
  show ((toUInt32 c : Nat) : Int) = c
  unfold toUInt32
  omega

/-- C10. The environment report, in both files (`GenerateTraffic` of the multi-node
file up to `SetCompleted`, `SendReceivedPacketData` of the single-node file), at
virtual time `t` with the counter at `c`, where `c` is a value the `int` counter can
hold after counting packets (`0 ≤ c ≤ 2^31 - 1`).  The record published, which is also
what the environment slot holds afterwards, has `simTime_us` equal to
`t.GetMicroSeconds ()` (so `k` when `t` is `k` microseconds), the tally field
`segmentSize` equal to `c`, and `nodeId = 5`, `socketUid = 2`, `envType = 1`; the report
leaves the counter at `c`. -/
theorem report_publishes_time_and_tally (t : Time) (c : Int) (h0 : 0 ≤ c)
    (h31 : c ≤ 2147483647) :
    (∀ g draw reply sockets pktSize pktCount pktInterval (s : RLWifiNS3AI.State),
      s.now = t → s.packetsReceived = c →
        ∃ r, (RLWifiNS3AI.stepEffects g draw reply sockets pktSize pktCount pktInterval
            s).head? = some (RLWifiNS3AI.Effect.envPublish r) ∧
          (RLWifiNS3AI.GenerateTraffic g draw reply sockets pktSize pktCount pktInterval
            s).env = r ∧
          r.simTime_us = GetMicroSeconds t ∧ (r.segmentSize : Int) = c ∧
          r.nodeId = 5 ∧ r.socketUid = 2 ∧ r.envType = 1 ∧
          (RLWifiNS3AI.GenerateTraffic g draw reply sockets pktSize pktCount pktInterval
            s).packetsReceived = c) ∧
    (∀ reply socket pktSize pktCount pktInterval (s : WifiSimpleAdhoc.State),
      s.now = t → s.packetsReceived = c →
        ∃ r, WifiSimpleAdhoc.effectsSince s
            (WifiSimpleAdhoc.SendReceivedPacketData reply socket pktSize pktCount
              pktInterval s) = [WifiSimpleAdhoc.Effect.envPublish r] ∧
          (WifiSimpleAdhoc.SendReceivedPacketData reply socket pktSize pktCount
            pktInterval s).env = r ∧
          r.simTime_us = GetMicroSeconds t ∧ (r.segmentSize : Int) = c ∧
          r.nodeId = 5 ∧ r.socketUid = 2 ∧ r.envType = 1 ∧
          (WifiSimpleAdhoc.SendReceivedPacketData reply socket pktSize pktCount
            pktInterval s).packetsReceived = c) ∧
    (∀ k : Int, t = (k : ℚ) / 1000000 → GetMicroSeconds t = k) := by
  refine ⟨?_, ?_, ?_⟩
  · intro g draw reply sockets pktSize pktCount pktInterval s ht hc
    obtain ⟨f1, f2, f3, f4, f5⟩ := fillEnvironment_fields s.env t c
    refine ⟨fillEnvironment s.env t c, ?_, ?_, f1, f5 h0 h31, f2, f3, f4, ?_⟩
    · unfold RLWifiNS3AI.stepEffects
      cases hrun : reply.runSimulation
      · rw [RLWifiNS3AI.effects_halt g draw reply sockets pktSize pktCount pktInterval s
          hrun, ht, hc]
        rfl
      · rw [RLWifiNS3AI.effects_run g draw reply sockets pktSize pktCount pktInterval s
          hrun, ht, hc]
        rfl
    · cases hrun : reply.runSimulation
      · rw [RLWifiNS3AI.GenerateTraffic_halt g draw reply sockets pktSize pktCount
          pktInterval s hrun, ht, hc]
      · rw [RLWifiNS3AI.GenerateTraffic_run g draw reply sockets pktSize pktCount
          pktInterval s hrun, ht, hc]
    · rw [GenerateTraffic_packetsReceived_multi, hc]
  · intro reply socket pktSize pktCount pktInterval s ht hc
    obtain ⟨f1, f2, f3, f4, f5⟩ := fillEnvironment_fields s.env t c
    refine ⟨fillEnvironment s.env t c, ?_, ?_, f1, f5 h0 h31, f2, f3, f4, hc⟩
    · apply WifiSimpleAdhoc.adhoc_effectsSince_append
      unfold WifiSimpleAdhoc.SendReceivedPacketData
      rw [ht, hc]
    · unfold WifiSimpleAdhoc.SendReceivedPacketData
      rw [ht, hc]
  · intro k hk
    rw [hk]
    exact GetMicroSeconds_of_microseconds k


/-- C10, at a concrete input: both reports at virtual time 2.5 s with seven packets
received. -/
theorem report_publishes_time_and_tally_witness :
    ((0 : Int) ≤ 7 ∧ (7 : Int) ≤ 2147483647) ∧
    GetMicroSeconds (5 / 2) = 2500000 ∧
    ((RLWifiNS3AI.GenerateTraffic RLWifiNS3AI.twoNodes RLWifiNS3AI.halfDraw
      RLWifiNS3AI.sendOnNodeOne 2 1000 3 1
        RLWifiNS3AI.reportState).env.segmentSize : Int) = 7 ∧
    (RLWifiNS3AI.GenerateTraffic RLWifiNS3AI.twoNodes RLWifiNS3AI.halfDraw
      RLWifiNS3AI.sendOnNodeOne 2 1000 3 1 RLWifiNS3AI.reportState).env.simTime_us =
        GetMicroSeconds (5 / 2) ∧
    ((WifiSimpleAdhoc.SendReceivedPacketData ⟨1, 0⟩ 0 1000 1 1
      WifiSimpleAdhoc.reportState).env.segmentSize : Int) = 7 := by
  have h := report_publishes_time_and_tally (5 / 2) 7 (by decide) (by decide)
  obtain ⟨r, -, henv, htime, hseg, -⟩ :=
    h.1 RLWifiNS3AI.twoNodes RLWifiNS3AI.halfDraw RLWifiNS3AI.sendOnNodeOne 2 1000 3 1
      RLWifiNS3AI.reportState rfl rfl
  obtain ⟨r', -, henv', -, hseg', -⟩ :=
    h.2.1 ⟨1, 0⟩ 0 1000 1 1 WifiSimpleAdhoc.reportState rfl rfl
  refine ⟨⟨by decide, by decide⟩, h.2.2 2500000 (by norm_num), ?_, ?_, ?_⟩
  · rw [henv]
    exact hseg
  · rw [henv]
    exact htime
  · rw [henv']
    exact hseg'

/-- C11, refuted as stated.  Single-node variant, a two-node run from `main`: after the
first round of the event loop, which fires the first `GenerateTraffic`, the action has
been read and no environment has been published; step 0 reads the action slot with no
publication before it. -/
theorem first_read_without_publication_counterexample :
    WifiSimpleAdhoc.handshakes (WifiSimpleAdhoc.sampleRun 1).program.trace = [true] ∧
    WifiSimpleAdhoc.publications (WifiSimpleAdhoc.sampleRun 1).program.trace = 0 := by
  obtain ⟨sim', hn, hp⟩ := WifiSimpleAdhoc.next_main ⟨2⟩ ⟨2⟩ (fun _ => ⟨1, 0⟩) (fun _ => 0)
    zeroEnvironment ⟨0, 0⟩ 1000 1 1 (fun _ => 1 / 2) (fun _ => by norm_num)
  have hrun : WifiSimpleAdhoc.sampleRun 1 = sim' := by
    unfold WifiSimpleAdhoc.sampleRun
    rw [WifiSimpleAdhoc.Simulator.runFor, hn]
    rfl
  rw [hrun, hp]
  decide

/-- C11 (amended).  Multi-node variant: in every step, from any state with the cursor
in range (`1 ≤ N ≤ 10` nodes), the environment publication comes first and every read
of the action of that step comes after it: the read of the run flag in `GenerateTraffic`
and the reads of the send flags in the `RandomizedSocketSend` invocations it schedules,
fired in any order.  Single-node variant: in every run of the event loop from `main`
(any agent, any arrivals, any number of rounds) reads and publications alternate
beginning with a read; so every `GenerateTraffic` read after the first is directly
preceded by the publication that the previous step scheduled one millisecond before
it, and the first read is preceded by no publication. -/
theorem publication_precedes_read :
    (∀ (N : Nat) (g : RLWifiNS3AI.Globals) (draw : Nat → ℚ)
        (reply : RLWifiNS3AI.NS3AgentActions) (pktSize pktCount : Nat)
        (pktInterval : Time) (s : RLWifiNS3AI.State) (c : Nat)
        (order : List (Time × RLWifiNS3AI.Event)),
      1 ≤ N → N ≤ 10 → g.numNodes = N → c < N → s.nodeNum = (c : Int) →
      order.Perm (RLWifiNS3AI.scheduled RLWifiNS3AI.Callback.RandomizedSocketSend
        (RLWifiNS3AI.stepEffects g draw reply N pktSize pktCount pktInterval s)) →
        ∃ s', RLWifiNS3AI.fireAll g draw reply (order.map Prod.snd)
            (RLWifiNS3AI.GenerateTraffic g draw reply N pktSize pktCount pktInterval s) =
              some s' ∧
          RLWifiNS3AI.handshakes (RLWifiNS3AI.effectsSince s s') =
            false :: List.replicate (1 + order.length) true) ∧
    (∀ (g : WifiSimpleAdhoc.Globals) (env : NS3Environment)
        (act : WifiSimpleAdhoc.NS3AgentActions) (packetSize numPackets : Nat)
        (interval : Time) (draw : Nat → ℚ) (agent : Nat → WifiSimpleAdhoc.NS3AgentActions)
        (arrivals : Nat → Nat) (n : Nat),
      WifiSimpleAdhoc.handshakes
          (WifiSimpleAdhoc.Simulator.runFor g agent arrivals n
            (WifiSimpleAdhoc.main g env act packetSize numPackets interval
              draw)).program.trace =
        WifiSimpleAdhoc.alternation
          (WifiSimpleAdhoc.handshakes
            (WifiSimpleAdhoc.Simulator.runFor g agent arrivals n
              (WifiSimpleAdhoc.main g env act packetSize numPackets interval
                draw)).program.trace).length) := by
  constructor
  · intro N g draw reply pktSize pktCount pktInterval s c order hN1 hN10 hg hc hcur horder
    exact RLWifiNS3AI.complete_step_handshakes N hN1 hN10 g hg draw reply pktSize pktCount
      pktInterval s c hc hcur order horder
  · intro g env act packetSize numPackets interval draw agent arrivals n
    exact (WifiSimpleAdhoc.Consistent_runFor g agent arrivals n _
      (WifiSimpleAdhoc.Consistent_main g env act packetSize numPackets interval draw)).1

/-- C11 (amended), at concrete inputs: a two-node multi-node step with node 1's event
fired first, and six rounds of a single-node run. -/
theorem publication_precedes_read_witness :
    (1 ≤ 2 ∧ 2 ≤ 10 ∧ 0 < 2 ∧ RLWifiNS3AI.startState.nodeNum = ((0 : Nat) : Int)) ∧
    (RLWifiNS3AI.fireAll RLWifiNS3AI.twoNodes RLWifiNS3AI.halfDraw
        RLWifiNS3AI.sendOnNodeOne (RLWifiNS3AI.nodeOneFirst.map Prod.snd)
        RLWifiNS3AI.afterFirstStep).map
      (fun s' => RLWifiNS3AI.handshakes
        (RLWifiNS3AI.effectsSince RLWifiNS3AI.startState s')) =
      some [false, true, true, true] ∧
    WifiSimpleAdhoc.handshakes (WifiSimpleAdhoc.sampleRun 6).program.trace =
      WifiSimpleAdhoc.alternation
        (WifiSimpleAdhoc.handshakes (WifiSimpleAdhoc.sampleRun 6).program.trace).length := by
  obtain ⟨s', hfire, hs⟩ := publication_precedes_read.1 2 RLWifiNS3AI.twoNodes
    RLWifiNS3AI.halfDraw RLWifiNS3AI.sendOnNodeOne 1000 3 1 RLWifiNS3AI.startState 0
    RLWifiNS3AI.nodeOneFirst (by decide) (by decide) rfl (by decide) rfl
    (by
      unfold RLWifiNS3AI.stepEffects
      rw [RLWifiNS3AI.scheduled_sends_run _ _ _ _ _ _ _ _ rfl]
      exact List.Perm.swap _ _ [])
  refine ⟨⟨by decide, by decide, by decide, rfl⟩, ?_,
    publication_precedes_read.2 ⟨2⟩ zeroEnvironment ⟨0, 0⟩ 1000 1 1 (fun _ => 1 / 2)
      (fun _ => ⟨1, 0⟩) (fun _ => 0) 6⟩
  unfold RLWifiNS3AI.afterFirstStep
  rw [hfire, Option.map_some', hs]
  rfl
